import Mathlib

/-
Verification development for the groupdelivery route-optimization backend.

Conventions of the embedding:
* Clock times ("HH:MM" strings in the source) are embedded as natural numbers of
  minutes from midnight.
* Python floats (km distances, minute durations) are embedded as rationals.
* Python truthiness on optional numeric fields is embedded explicitly
  (none and 0 are falsy).
* The OR-Tools backend is an external library; following section 4.2 of the
  specification it is treated as a black box that returns a feasible,
  objective-optimal assignment.  A raw assignment is a RawSolution; the
  constraints assembled by VRPSolver.solve are the predicate Feasible, and the
  search objective is the function objective below.
-/

namespace GroupDelivery

/-- Matrix entry lookup, defaulting out-of-range entries to 0. -/
def mget (m : List (List ℚ)) (a b : ℕ) : ℚ := (m.getD a []).getD b 0

/-- Python int() truncation toward zero on a rational. -/
def pyInt (q : ℚ) : ℤ := if 0 ≤ q then ⌊q⌋ else -⌊-q⌋

/-- Python "n if n else d" on a natural number field (0 is falsy). -/
def pyOrNat (n d : ℕ) : ℕ := if n = 0 then d else n

/-- Python "x if x else d" on an optional natural field (none and 0 are falsy). -/
def optOrNat (o : Option ℕ) (d : ℕ) : ℕ :=
  match o with
  | none => d
  | some n => pyOrNat n d

/-- Python "s or d" on an optional string field (none and "" are falsy). -/
def optOrStr (o : Option String) (d : String) : String :=
  match o with
  | none => d
  | some s => if s.isEmpty then d else s

/-- Python truthiness of an optional float column (none and 0.0 are falsy). -/
def qTruthy : Option ℚ → Bool
  | none => false
  | some q => decide (q ≠ 0)

/-- vrp_solver.format_time: minutes from the shared origin to an "HH:MM" string,
using Python floor division and modulo. -/
def pad2 (n : ℤ) : String := if n < 10 then "0" ++ toString n else toString n

def format_time (minutes : ℤ) : String :=
  pad2 (Int.ediv minutes 60) ++ ":" ++ pad2 (Int.emod minutes 60)

/-- Modelled from the spec: the offset-aware variant of format_time that the
router calls with two arguments (the sources only contain the one-argument
version); per section 6 the per-stop times are HH:MM values derived from the
shared time origin, so the offset of that origin from midnight is added first. -/
def format_time_from (minutes : ℤ) (offset : ℕ) : String :=
  format_time (minutes + (offset : ℤ))

/-- vrp_solver.parse_time: a clock time relative to the base clock time, in
minutes (may be negative when the target is earlier than the base). -/
def parse_time (t : ℕ) (base : ℕ) : ℤ := (t : ℤ) - (base : ℤ)

/-- Clock rendering of a minutes-from-midnight value (HH:MM). -/
def clockStr (t : ℕ) : String := pad2 ((t : ℤ) / 60) ++ ":" ++ pad2 ((t : ℤ) % 60)

/-- services/vrp_solver.VRPSolver: the fields set in init plus the extended
constraint fields the router configures.  The three fields after
vehicle_capacities are modelled from the spec (sections 3 and 4.2): the setters
the router calls for them are not part of the sources. -/
structure VRPSolver where
  distance_matrix : List (List ℚ)
  duration_matrix : List (List ℚ)
  num_vehicles : ℕ
  depot_index : ℕ
  service_times : List ℕ
  time_windows : List (ℤ × ℤ)
  max_route_durations : List ℤ
  vehicle_capacities : List ℕ
  vehicle_start_offsets : List ℤ
  mandatory_final_stops : List (ℕ × ℕ)
  allowed_vehicles : List (ℕ × List ℕ)
deriving Repr

def VRPSolver.num_locations (s : VRPSolver) : ℕ := s.distance_matrix.length

/-- VRPSolver.__init__ defaults: 5-minute service everywhere except the depot,
8-hour windows, 240-minute route cap, capacity 15; the extended constraint
fields start unset. -/
def VRPSolver.init (distance_matrix duration_matrix : List (List ℚ))
    (num_vehicles : ℕ) (depot_index : ℕ) : VRPSolver :=
  { distance_matrix := distance_matrix
  , duration_matrix := duration_matrix
  , num_vehicles := num_vehicles
  , depot_index := depot_index
  , service_times := (List.replicate distance_matrix.length 5).set depot_index 0
  , time_windows := List.replicate distance_matrix.length (0, 480)
  , max_route_durations := List.replicate num_vehicles 240
  , vehicle_capacities := List.replicate num_vehicles 15
  , vehicle_start_offsets := []
  , mandatory_final_stops := []
  , allowed_vehicles := [] }

def VRPSolver.set_service_times (s : VRPSolver) (ts : List ℕ) : VRPSolver :=
  { s with service_times := ts }

def VRPSolver.set_time_windows (s : VRPSolver) (tw : List (ℤ × ℤ)) : VRPSolver :=
  { s with time_windows := tw }

def VRPSolver.set_vehicle_capacities (s : VRPSolver) (cs : List ℕ) : VRPSolver :=
  { s with vehicle_capacities := cs }

def VRPSolver.set_max_route_durations (s : VRPSolver) (ds : List ℤ) : VRPSolver :=
  { s with max_route_durations := ds }

/-- Modelled from the spec: per-vehicle start-time offsets (section 3); the
setter is called by the router but is not part of the sources. -/
def VRPSolver.set_vehicle_start_offsets (s : VRPSolver) (os : List ℤ) : VRPSolver :=
  { s with vehicle_start_offsets := os }

/-- Modelled from the spec: mandatory final stops for vehicles ending at home
(sections 3 and 4.2); the setter is called by the router but is not part of the
sources. -/
def VRPSolver.set_vehicle_mandatory_final_stops (s : VRPSolver) (ms : List (ℕ × ℕ)) : VRPSolver :=
  { s with mandatory_final_stops := ms }

/-- Modelled from the spec: allowed-vehicle restriction per node (section 3);
the setter is called by the router but is not part of the sources. -/
def VRPSolver.set_allowed_vehicles_for_nodes (s : VRPSolver) (av : List (ℕ × List ℕ)) : VRPSolver :=
  { s with allowed_vehicles := av }

/-- The arc distance cost registered in solve: int(distance_km * 1000). -/
def VRPSolver.distCost (s : VRPSolver) (a b : ℕ) : ℤ :=
  pyInt (mget s.distance_matrix a b * 1000)

/-- The time-dimension transit registered in solve: int(travel minutes) plus
the service time of the origin node. -/
def VRPSolver.transit (s : VRPSolver) (a b : ℕ) : ℤ :=
  pyInt (mget s.duration_matrix a b) + (s.service_times.getD a 0 : ℤ)

/-- Python max over a list of integers (only used on nonempty lists). -/
def listMaxZ : List ℤ → ℤ
  | [] => 0
  | [x] => x
  | x :: y :: rest => max x (listMaxZ (y :: rest))

/-- The time-dimension capacity passed to AddDimension in solve:
max(self.max_route_durations). -/
def VRPSolver.max_duration_overall (s : VRPSolver) : ℤ := listMaxZ s.max_route_durations

/-- One vehicle of a raw backend assignment: the non-terminal nodes it visits in
order, each with the value of the time-dimension cumulative variable there, plus
the cumulative values at its start and end terminals. -/
structure VehiclePlan where
  visits : List (ℕ × ℤ)
  startTime : ℤ
  endTime : ℤ
deriving Repr, DecidableEq

instance : Inhabited VehiclePlan := ⟨⟨[], 0, 0⟩⟩

/-- A raw backend assignment: one plan per vehicle. -/
structure RawSolution where
  plans : List VehiclePlan
deriving Repr, DecidableEq

def nodesOf (p : VehiclePlan) : List ℕ := p.visits.map Prod.fst

def visitedNodes (sol : RawSolution) : List ℕ := (sol.plans.map nodesOf).flatten

/-- The nodes reported dropped by _extract_solution: every node of
range(1, num_locations) that is on no route. -/
def droppedNodes (s : VRPSolver) (sol : RawSolution) : List ℕ :=
  ((List.range s.num_locations).drop 1).filter (fun u => decide (u ∉ visitedNodes sol))

/-- One arc of the time dimension: the successor cumul equals the predecessor
cumul plus transit plus a slack in [0, 30] (the slack bound of AddDimension). -/
def arcOK (s : VRPSolver) (a b : ℕ × ℤ) : Bool :=
  decide (a.2 + s.transit a.1 b.1 ≤ b.2) && decide (b.2 ≤ a.2 + s.transit a.1 b.1 + 30)

def timeChainOK (s : VRPSolver) : (ℕ × ℤ) → List (ℕ × ℤ) → (ℕ × ℤ) → Bool
  | prev, [], last => arcOK s prev last
  | prev, v :: rest, last => arcOK s prev v && timeChainOK s v rest last

def planTimesOK (s : VRPSolver) (p : VehiclePlan) : Bool :=
  timeChainOK s (s.depot_index, p.startTime) p.visits (s.depot_index, p.endTime)

/-- The SetRange window constraint on the cumulative variable of one node. -/
def windowOK (s : VRPSolver) (v : ℕ × ℤ) : Bool :=
  decide ((s.time_windows.getD v.1 (0, 0)).1 ≤ v.2) &&
  decide (v.2 ≤ (s.time_windows.getD v.1 (0, 0)).2)

/-- The dimension capacity bound on a cumulative variable. -/
def cumulBoundOK (s : VRPSolver) (t : ℤ) : Bool :=
  decide (0 ≤ t) && decide (t ≤ s.max_duration_overall)

/-- Depot windows on the terminal cumuls, plus the dimension capacity bound. -/
def depotBoundsOK (s : VRPSolver) (p : VehiclePlan) : Bool :=
  windowOK s (s.depot_index, p.startTime) && windowOK s (s.depot_index, p.endTime) &&
  cumulBoundOK s p.startTime && cumulBoundOK s p.endTime

/-- The per-vehicle SetMax on the end cumul in solve. -/
def endMaxOK (s : VRPSolver) (i : ℕ) (p : VehiclePlan) : Bool :=
  decide (p.endTime ≤ s.max_route_durations.getD i 0)

/-- The constraint system assembled by VRPSolver.solve, as a predicate on raw
assignments: node range and uniqueness, unary capacity, the time dimension with
its windows and per-vehicle end cap, and the spec-modelled start-offset,
mandatory-final-stop and allowed-vehicle constraints. -/
def Feasible (s : VRPSolver) (sol : RawSolution) : Prop :=
  sol.plans.length = s.num_vehicles ∧
  (∀ p ∈ sol.plans, ∀ u ∈ nodesOf p, 1 ≤ u ∧ u < s.num_locations) ∧
  (visitedNodes sol).Nodup ∧
  (∀ ip ∈ sol.plans.enum, ip.2.visits.length ≤ s.vehicle_capacities.getD ip.1 0) ∧
  (∀ ip ∈ sol.plans.enum, ip.2.startTime = s.vehicle_start_offsets.getD ip.1 0) ∧
  (∀ p ∈ sol.plans, planTimesOK s p = true) ∧
  (∀ p ∈ sol.plans, ∀ v ∈ p.visits, windowOK s v = true ∧ cumulBoundOK s v.2 = true) ∧
  (∀ p ∈ sol.plans, depotBoundsOK s p = true) ∧
  (∀ ip ∈ sol.plans.enum, endMaxOK s ip.1 ip.2 = true) ∧
  (∀ im ∈ s.mandatory_final_stops, (nodesOf (sol.plans.getD im.1 default)).getLast? = some im.2) ∧
  (∀ na ∈ s.allowed_vehicles, ∀ ip ∈ sol.plans.enum, na.1 ∈ nodesOf ip.2 → ip.1 ∈ na.2)

instance (s : VRPSolver) (sol : RawSolution) : Decidable (Feasible s sol) := by
  unfold Feasible
  infer_instance

/-- The node path of one vehicle: depot, its visits, depot. -/
def pathNodes (s : VRPSolver) (p : VehiclePlan) : List ℕ :=
  s.depot_index :: (nodesOf p ++ [s.depot_index])

/-- Integer arc-cost total along a node path. -/
def zAlong (s : VRPSolver) : List ℕ → ℤ
  | [] => 0
  | [_] => 0
  | a :: b :: rest => s.distCost a b + zAlong s (b :: rest)

/-- Raw rational matrix total along a node path (used by _extract_solution). -/
def qAlong (m : List (List ℚ)) : List ℕ → ℚ
  | [] => 0
  | [_] => 0
  | a :: b :: rest => mget m a b + qAlong m (b :: rest)

/-- The search objective: total integer arc distance plus the 100000 disjunction
penalty per dropped node. -/
def objective (s : VRPSolver) (sol : RawSolution) : ℤ :=
  (sol.plans.map (fun p => zAlong s (pathNodes s p))).sum
    + 100000 * ((droppedNodes s sol).length : ℤ)

/-- Modelled from the spec: the backend contract of section 4.2; the solver
returns a constraint-satisfying assignment that minimizes the objective. -/
def SolverReturns (s : VRPSolver) (sol : RawSolution) : Prop :=
  Feasible s sol ∧ ∀ sol2, Feasible s sol2 → objective s sol ≤ objective s sol2

/-- One route dictionary produced by _extract_solution. -/
structure SolvedRoute where
  vehicle_id : ℕ
  stops : List (ℕ × ℤ)
  distance_km : ℚ
  duration_minutes : ℚ
deriving Repr, DecidableEq

/-- The dictionary returned by _extract_solution. -/
structure Solution where
  routes : List SolvedRoute
  total_distance_km : ℚ
  total_duration_minutes : ℚ
  num_routes : ℕ
  dropped_nodes : List ℕ
  objective_value : ℤ
deriving Repr, DecidableEq

/-- The per-vehicle extraction loop of _extract_solution: the stop list is the
start terminal, the visited nodes, then the end terminal, each with its
cumulative time; distance and duration are the raw matrix totals along the
path. -/
def extractRoute (s : VRPSolver) (i : ℕ) (p : VehiclePlan) : SolvedRoute :=
  { vehicle_id := i
  , stops := (s.depot_index, p.startTime) :: (p.visits ++ [(s.depot_index, p.endTime)])
  , distance_km := qAlong s.distance_matrix (pathNodes s p)
  , duration_minutes := qAlong s.duration_matrix (pathNodes s p) }

/-- VRPSolver._extract_solution: keep only routes with more than the two
terminal stops, total their figures, and report the dropped nodes. -/
def extract_solution (s : VRPSolver) (sol : RawSolution) : Solution :=
  let all := sol.plans.enum.map (fun ip => extractRoute s ip.1 ip.2)
  let kept := all.filter (fun r => decide (2 < r.stops.length))
  { routes := kept
  , total_distance_km := (kept.map (fun r => r.distance_km)).sum
  , total_duration_minutes := (kept.map (fun r => r.duration_minutes)).sum
  , num_routes := kept.length
  , dropped_nodes := droppedNodes s sol
  , objective_value := objective s sol }

/-- Modelled from the spec: the dropped-node diagnosis heuristics of section 4.3
(the analyze_dropped_nodes method of the extended solver is not part of the
sources).  Non-exclusive reasons: a narrow time window, a high service time,
and the capacity-or-duration catch-all when neither applies; the spec states the
exact thresholds are tunable. -/
def VRPSolver.analyze_dropped_nodes (s : VRPSolver) (nodes : List ℕ) : List (ℕ × List String) :=
  nodes.map (fun n =>
    let tw := s.time_windows.getD n (0, 0)
    let narrow := decide (tw.2 - tw.1 < s.max_duration_overall / 2)
    let highService := decide (30 ≤ s.service_times.getD n 0)
    let tags := (if narrow then ["narrow_time_window"] else []) ++
                (if highService then ["high_service_time"] else [])
    (n, if tags.isEmpty then ["capacity_or_duration"] else tags))

/-! ## Router data model (models, schemas and request records used by
routers/optimization.optimize_routes) -/

/-- models/address.Address, restricted to the columns the optimizer reads.
The gender-preference columns are present in the sources (model and
migration). -/
structure AddressRec where
  id : ℕ
  street : String
  recipient_name : Option String
  is_active : Bool
  latitude : Option ℚ
  longitude : Option ℚ
  service_time_minutes : ℕ
  preferred_time_start : Option ℕ
  preferred_time_end : Option ℕ
  preferred_driver_id : Option ℕ
  prefers_male_driver : Bool
  prefers_female_driver : Bool
deriving Repr, DecidableEq

/-- models/driver.Driver, restricted to the columns the optimizer reads.  The
gender column is the nullable VARCHAR added by migrate_add_gender_fields (the
Driver model class in the sources predates it). -/
structure DriverRec where
  id : ℕ
  name : String
  gender : Option String
  max_stops : Option ℕ
  max_route_duration_minutes : Option ℕ
  home_latitude : Option ℚ
  home_longitude : Option ℚ
  is_active : Bool
deriving Repr, DecidableEq

/-- Modelled from the spec: the per-driver request overrides of section 6
(start time, max stops, max duration, end-at-home flag); the DriverConstraints
schema in the sources lacks the start_time and end_at_home fields the router
reads. -/
structure DriverConstraints where
  max_stops : Option ℕ
  max_route_duration_minutes : Option ℕ
  start_time : Option ℕ
  end_at_home : Bool
deriving Repr, DecidableEq

/-- schemas/route.OptimizationRequest. -/
structure OptimizationRequest where
  date : ℕ
  address_ids : List ℕ
  driver_ids : List ℕ
  start_time : ℕ
  driver_constraints : Option (List (ℕ × DriverConstraints))
  time_limit_seconds : ℕ
deriving Repr, DecidableEq

/-- The Python test "request.driver_constraints and driver.id in
request.driver_constraints" followed by the lookup: an empty or absent
constraints dict is falsy. -/
def dcGet (req : OptimizationRequest) (id : ℕ) : Option DriverConstraints :=
  match req.driver_constraints with
  | none => none
  | some l => if l.isEmpty then none else l.lookup id

/-- One entry of the preferred-driver validation failure detail. -/
structure PreferredDriverError where
  address_id : ℕ
  recipient_name : String
  street : String
  preferred_driver_id : ℕ
  preferred_driver_name : String
deriving Repr, DecidableEq

/-- One entry of the gender-preference validation failure detail. -/
structure GenderPreferenceError where
  address_id : ℕ
  recipient_name : String
  street : String
  preference : String
  message : String
deriving Repr, DecidableEq

/-- The detail payload of an HTTPException raised by the optimizer. -/
inductive ErrDetail where
  | text (msg : String)
  | preferredDrivers (message : String) (addresses : List PreferredDriverError)
  | genderPreferences (message : String) (addresses : List GenderPreferenceError)
deriving Repr, DecidableEq

/-- An HTTPException: status code plus detail. -/
structure ApiError where
  status : ℕ
  detail : ErrDetail
deriving Repr, DecidableEq

/-- models/route.DeliveryDay, restricted to the columns the optimizer writes. -/
structure DeliveryDayRec where
  id : ℕ
  date : ℕ
  depot_latitude : Option ℚ
  depot_longitude : Option ℚ
  depot_address : Option String
  status : String
  total_stops : ℤ
  total_drivers : ℕ
  total_distance_km : ℚ
  total_duration_minutes : ℚ
deriving Repr, DecidableEq

/-- models/route.Route, restricted to the columns the optimizer writes. -/
structure RouteRec where
  id : ℕ
  delivery_day_id : ℕ
  driver_id : ℕ
  route_number : ℕ
  color : String
  total_stops : ℕ
  total_distance_km : ℚ
  total_duration_minutes : ℚ
  route_geometry : Option String
  start_time : String
  end_time : String
deriving Repr, DecidableEq

/-- models/route.RouteStop, restricted to the columns the optimizer writes. -/
structure RouteStopRec where
  route_id : ℕ
  address_id : ℕ
  sequence : ℕ
  estimated_arrival : String
  estimated_departure : String
  distance_from_previous_km : ℚ
  duration_from_previous_minutes : ℚ
deriving Repr, DecidableEq

/-- The database state the optimizer touches. -/
structure Db where
  addresses : List AddressRec
  drivers : List DriverRec
  delivery_days : List DeliveryDayRec
  routes : List RouteRec
  route_stops : List RouteStopRec
deriving Repr, DecidableEq

/-- config.Settings, restricted to the depot defaults the optimizer reads. -/
structure AppSettings where
  default_depot_latitude : ℚ
  default_depot_longitude : ℚ
  default_depot_address : String
deriving Repr, DecidableEq

/-- The route/geometry answer of the Distance Oracle (services/osrm). -/
structure GeometryData where
  distance_km : ℚ
  duration_minutes : ℚ
  geometry : Option String
deriving Repr, DecidableEq

/-- The external collaborators of one optimization run: the Distance Oracle
matrix and geometry endpoints, and the arc-routing backend behind
VRPSolver.solve. -/
structure Oracles where
  matrixO : List (ℚ × ℚ) → Except String (List (List ℚ) × List (List ℚ))
  solveO : VRPSolver → ℕ → Option Solution
  geometryO : List (ℚ × ℚ) → Except String GeometryData

/-- Modelled from the spec: the missing DroppedAddressDetail schema entry
(sections 4.3 and 6: stop id, name, street, reason, window, service time). -/
structure DroppedAddressDetail where
  address_id : ℕ
  recipient_name : String
  street : String
  reason : String
  time_window : String
  service_time_minutes : ℕ
deriving Repr, DecidableEq

/-- The response model of the optimize endpoint, restricted to the fields the
claims mention. -/
structure OptimizationResultResp where
  delivery_day_id : ℕ
  date : ℕ
  status : String
  total_routes : ℕ
  total_stops : ℤ
  total_distance_km : ℚ
  total_duration_minutes : ℚ
  routes : List RouteRec
  dropped_addresses : List ℕ
  dropped_address_details : List DroppedAddressDetail
  message : String
deriving Repr, DecidableEq

/-! ## Router pipeline (routers/optimization.optimize_routes) -/

/-- The address query: active requested addresses that have coordinates,
in stored order. -/
def fetchAddresses (db : Db) (req : OptimizationRequest) : List AddressRec :=
  db.addresses.filter (fun a =>
    req.address_ids.contains a.id && a.is_active && a.latitude.isSome && a.longitude.isSome)

/-- Lines 71 to 86: fail with 400 when some requested address is missing or has
no coordinates. -/
def validateAddresses (db : Db) (req : OptimizationRequest) : Except ApiError (List AddressRec) :=
  let addrs := fetchAddresses db req
  if addrs.length < req.address_ids.length then
    .error ⟨400, .text "Some addresses not found or do not have coordinates"⟩
  else
    .ok addrs

/-- The driver query: active requested drivers, in stored order. -/
def fetchDrivers (db : Db) (req : OptimizationRequest) : List DriverRec :=
  db.drivers.filter (fun d => req.driver_ids.contains d.id && d.is_active)

/-- Lines 88 to 104: fail with 400 when some requested driver is missing or
inactive, or when no driver was selected. -/
def validateDrivers (db : Db) (req : OptimizationRequest) : Except ApiError (List DriverRec) :=
  let drivers := fetchDrivers db req
  if drivers.length ≠ req.driver_ids.length then
    .error ⟨400, .text "Some drivers not found or inactive"⟩
  else if drivers.length = 0 then
    .error ⟨400, .text "At least one driver is required"⟩
  else
    .ok drivers

/-- Lines 119 to 135: collect the home coordinates of the drivers flagged to
end at home, raising 400 at the first such driver whose stored home coordinates
are falsy. -/
def driversEndingAtHome (req : OptimizationRequest) : List DriverRec → Except ApiError (List (ℕ × (ℚ × ℚ)))
  | [] => .ok []
  | d :: rest =>
    match dcGet req d.id with
    | some c =>
      if c.end_at_home then
        if qTruthy d.home_latitude && qTruthy d.home_longitude then
          match driversEndingAtHome req rest with
          | .error e => .error e
          | .ok tail => .ok ((d.id, (d.home_latitude.getD 0, d.home_longitude.getD 0)) :: tail)
        else
          .error ⟨400, .text ("Driver " ++ d.name ++ " has end at home enabled but no home address configured")⟩
      else driversEndingAtHome req rest
    | none => driversEndingAtHome req rest

/-- Lines 138 to 143: map location index (depot is 0) to the delivery address
it carries. -/
def addressMap (addrs : List AddressRec) : List (ℕ × AddressRec) :=
  addrs.enum.map (fun ia => (ia.1 + 1, ia.2))

/-- Line 111: vehicle indices of the male-tagged drivers. -/
def maleDriverIndicesAux : ℕ → List DriverRec → List ℕ
  | _, [] => []
  | i, d :: rest =>
    (if d.gender = some "male" then [i] else []) ++ maleDriverIndicesAux (i + 1) rest

def maleDriverIndices (drivers : List DriverRec) : List ℕ := maleDriverIndicesAux 0 drivers

/-- Line 112: vehicle indices of the female-tagged drivers. -/
def femaleDriverIndicesAux : ℕ → List DriverRec → List ℕ
  | _, [] => []
  | i, d :: rest =>
    (if d.gender = some "female" then [i] else []) ++ femaleDriverIndicesAux (i + 1) rest

def femaleDriverIndices (drivers : List DriverRec) : List ℕ := femaleDriverIndicesAux 0 drivers

/-- Line 107: the driver-id-to-vehicle-index dict built from enumerate (last
occurrence wins, as in a Python dict comprehension; driver ids are unique in
practice). -/
def driverIdToVehicleIdx (drivers : List DriverRec) (pid : ℕ) : ℕ :=
  (((drivers.enum.filter (fun p => decide (p.2.id = pid))).map Prod.fst).getLastD 0)

/-- Lines 160 to 163: the name of a preferred driver looked up in the full
driver table, Unknown when absent. -/
def driverNameInDb (db : Db) (id : ℕ) : String :=
  match db.drivers.find? (fun d => decide (d.id = id)) with
  | some d => d.name
  | none => "Unknown"

/-- The structured record appended for an address whose preferred driver is not
in the selection (lines 164 to 170). -/
def mkPrefError (db : Db) (a : AddressRec) (pid : ℕ) : PreferredDriverError :=
  { address_id := a.id
  , recipient_name := optOrStr a.recipient_name "Unknown"
  , street := a.street
  , preferred_driver_id := pid
  , preferred_driver_name := driverNameInDb db pid }

/-- The structured record appended for an unsatisfiable gender preference
(lines 175 to 181 and 186 to 192). -/
def mkGenderError (a : AddressRec) (pref msg : String) : GenderPreferenceError :=
  { address_id := a.id
  , recipient_name := optOrStr a.recipient_name "Unknown"
  , street := a.street
  , preference := pref
  , message := msg }

/-- The outcome of the constraint-collection loop. -/
structure ConstraintScan where
  constraints : List (ℕ × List ℕ)
  prefErrors : List PreferredDriverError
  genderErrors : List GenderPreferenceError
deriving Repr, DecidableEq

/-- Lines 145 to 198: walk the address map in order; a stored preferred driver
takes priority (singleton allowed set when selected, error record otherwise),
then a strict gender preference (the matching index list when nonempty, error
record otherwise); both-or-neither gender flags mean no constraint. -/
def scanConstraints (db : Db) (drivers : List DriverRec) : List (ℕ × AddressRec) → ConstraintScan
  | [] => ⟨[], [], []⟩
  | (li, a) :: rest =>
    let tail := scanConstraints db drivers rest
    match a.preferred_driver_id with
    | some pid =>
      if (drivers.map (fun d => d.id)).contains pid then
        ⟨(li, [driverIdToVehicleIdx drivers pid]) :: tail.constraints, tail.prefErrors, tail.genderErrors⟩
      else
        ⟨tail.constraints, mkPrefError db a pid :: tail.prefErrors, tail.genderErrors⟩
    | none =>
      if a.prefers_male_driver && !a.prefers_female_driver then
        if (maleDriverIndices drivers).isEmpty then
          ⟨tail.constraints, tail.prefErrors,
           mkGenderError a "male driver" "No male drivers available in selection" :: tail.genderErrors⟩
        else
          ⟨(li, maleDriverIndices drivers) :: tail.constraints, tail.prefErrors, tail.genderErrors⟩
      else if a.prefers_female_driver && !a.prefers_male_driver then
        if (femaleDriverIndices drivers).isEmpty then
          ⟨tail.constraints, tail.prefErrors,
           mkGenderError a "female driver" "No female drivers available in selection" :: tail.genderErrors⟩
        else
          ⟨(li, femaleDriverIndices drivers) :: tail.constraints, tail.prefErrors, tail.genderErrors⟩
      else
        tail

def preferredDriverFailureMsg : String :=
  "Some addresses have preferred drivers that are not included in the selected drivers"

def genderFailureMsg : String :=
  "Some addresses require a driver gender not available in selected drivers"

/-- Lines 200 to 216: fail the whole request with 400 when any preferred-driver
errors were collected, then when any gender-preference errors were collected,
listing every offending address together. -/
def validateScan (cs : ConstraintScan) : Except ApiError (List (ℕ × List ℕ)) :=
  if !cs.prefErrors.isEmpty then
    .error ⟨400, .preferredDrivers preferredDriverFailureMsg cs.prefErrors⟩
  else if !cs.genderErrors.isEmpty then
    .error ⟨400, .genderPreferences genderFailureMsg cs.genderErrors⟩
  else
    .ok cs.constraints

/-- Lines 138 to 143 and 218 to 228: depot first, then the addresses, then the
home locations of the drivers ending at home. -/
def buildLocations (st : AppSettings) (addrs : List AddressRec) (homeLocs : List (ℕ × (ℚ × ℚ))) : List (ℚ × ℚ) :=
  (st.default_depot_latitude, st.default_depot_longitude)
    :: addrs.map (fun a => (a.latitude.getD 0, a.longitude.getD 0))
    ++ homeLocs.map Prod.snd

/-- Lines 220 to 228: location index of each home terminal, appended after the
addresses in ending-at-home order. -/
def homeLocationIndices (addrCount : ℕ) (homeLocs : List (ℕ × (ℚ × ℚ))) : List (ℕ × ℕ) :=
  homeLocs.enum.map (fun ih => (ih.2.1, 1 + addrCount + ih.1))

/-- Lines 254 to 261: zero service time at the depot and at home terminals,
address service time with the falsy-to-5 default in between. -/
def computeServiceTimes (addrs : List AddressRec) (homeCount : ℕ) : List ℕ :=
  0 :: addrs.map (fun a => pyOrNat a.service_time_minutes 5) ++ List.replicate homeCount 0

/-- Lines 263 to 273: per-vehicle max stops; a request constraints entry wins
(its absent field falls back to 15 directly), otherwise the falsy-guarded
driver default, otherwise 15. -/
def computeCapacities (req : OptimizationRequest) (drivers : List DriverRec) : List ℕ :=
  drivers.map (fun d =>
    match dcGet req d.id with
    | some c => c.max_stops.getD 15
    | none => optOrNat d.max_stops 15)

/-- Lines 275 to 284: per-vehicle max route duration; a request constraints
entry wins (its absent field falls back to 120 directly), otherwise the
falsy-guarded driver default, otherwise 120. -/
def computeMaxDurations (req : OptimizationRequest) (drivers : List DriverRec) : List ℕ :=
  drivers.map (fun d =>
    match dcGet req d.id with
    | some c => c.max_route_duration_minutes.getD 120
    | none => optOrNat d.max_route_duration_minutes 120)

/-- Lines 286 to 295: per-driver start clock time, the constraints entry start
time when present, else the global request start time. -/
def driverStartTimes (req : OptimizationRequest) (drivers : List DriverRec) : List ℕ :=
  drivers.map (fun d =>
    match dcGet req d.id with
    | some c =>
      match c.start_time with
      | some t => t
      | none => req.start_time
    | none => req.start_time)

/-- Python min over a list of naturals (only used on nonempty lists). -/
def listMinNat : List ℕ → ℕ
  | [] => 0
  | [x] => x
  | x :: y :: rest => min x (listMinNat (y :: rest))

/-- Python max over a list of naturals (only used on nonempty lists). -/
def listMaxNat : List ℕ → ℕ
  | [] => 0
  | [x] => x
  | x :: y :: rest => max x (listMaxNat (y :: rest))

/-- Lines 302 to 305: the earliest driver start clock time, the shared time
origin. -/
def earliestStart (req : OptimizationRequest) (drivers : List DriverRec) : ℕ :=
  listMinNat (driverStartTimes req drivers)

/-- Lines 311 to 314: per-vehicle start offsets relative to the earliest
start. -/
def vehicleStartOffsets (req : OptimizationRequest) (drivers : List DriverRec) : List ℤ :=
  (driverStartTimes req drivers).map (fun t => (t : ℤ) - (earliestStart req drivers : ℤ))

/-- Lines 318 to 333: the depot gets the full window up to the largest
per-vehicle duration, addresses their preferred window parsed relative to the
earliest start (full bound when absent), home terminals the full window. -/
def computeTimeWindows (req : OptimizationRequest) (drivers : List DriverRec)
    (addrs : List AddressRec) (homeCount : ℕ) : List (ℤ × ℤ) :=
  let maxOverall : ℤ := (listMaxNat (computeMaxDurations req drivers) : ℤ)
  let base := earliestStart req drivers
  (0, maxOverall)
    :: addrs.map (fun a =>
        ( match a.preferred_time_start with
          | some t => parse_time t base
          | none => 0
        , match a.preferred_time_end with
          | some t => parse_time t base
          | none => maxOverall))
    ++ List.replicate homeCount (0, maxOverall)

/-- Lines 335 to 344: vehicle index to home location index for the drivers
ending at home. -/
def mandatoryFinalStops (drivers : List DriverRec) (homeIdx : List (ℕ × ℕ)) : List (ℕ × ℕ) :=
  drivers.enum.filterMap (fun ip =>
    match homeIdx.lookup ip.2.id with
    | some h => some (ip.1, h)
    | none => none)

/-- Lines 243 to 350: construct the solver and apply every configuration step
in source order. -/
def buildSolver (req : OptimizationRequest) (drivers : List DriverRec) (addrs : List AddressRec)
    (homeLocs : List (ℕ × (ℚ × ℚ))) (constraints : List (ℕ × List ℕ))
    (dist dur : List (List ℚ)) : VRPSolver :=
  let homeIdx := homeLocationIndices addrs.length homeLocs
  let s := VRPSolver.init dist dur drivers.length 0
  let s := s.set_service_times (computeServiceTimes addrs homeLocs.length)
  let s := s.set_vehicle_capacities (computeCapacities req drivers)
  let s := s.set_max_route_durations ((computeMaxDurations req drivers).map (fun n => (n : ℤ)))
  let s := s.set_vehicle_start_offsets (vehicleStartOffsets req drivers)
  let s := s.set_time_windows (computeTimeWindows req drivers addrs homeLocs.length)
  let s := if homeIdx.isEmpty then s else s.set_vehicle_mandatory_final_stops (mandatoryFinalStops drivers homeIdx)
  let s := if constraints.isEmpty then s else s.set_allowed_vehicles_for_nodes constraints
  s

/-- Lines 230 to 241: the Distance Oracle matrix call; failure aborts with
500. -/
def fetchMatrix (oracles : Oracles) (locations : List (ℚ × ℚ)) :
    Except ApiError (List (List ℚ) × List (List ℚ)) :=
  match oracles.matrixO locations with
  | .error e => .error ⟨500, .text ("Failed to get distance matrix from OSRM: " ++ e)⟩
  | .ok m => .ok m

/-- Lines 352 to 381: the pre-solve validation of inputs. -/
def preSolveChecks (addrs : List AddressRec) (locations : List (ℚ × ℚ))
    (dist : List (List ℚ)) : Except ApiError Unit :=
  if addrs.length = 0 then
    .error ⟨400, .text "No addresses to optimize"⟩
  else if dist.length ≠ locations.length then
    .error ⟨500, .text "Distance matrix size mismatch"⟩
  else if !(locations.all (fun loc =>
      decide (-90 ≤ loc.1) && decide (loc.1 ≤ 90) && decide (-180 ≤ loc.2) && decide (loc.2 ≤ 180))) then
    .error ⟨500, .text "Invalid coordinates"⟩
  else
    .ok ()

/-- Lines 383 to 395: run the backend; no solution at all is a 500. -/
def runSolver (oracles : Oracles) (solver : VRPSolver) (req : OptimizationRequest) :
    Except ApiError Solution :=
  match oracles.solveO solver req.time_limit_seconds with
  | none => .error ⟨500, .text "No solution found. Try increasing time limit or reducing constraints."⟩
  | some sol => .ok sol

instance : Inhabited AddressRec :=
  ⟨{ id := 0, street := "", recipient_name := none, is_active := false
   , latitude := none, longitude := none, service_time_minutes := 0
   , preferred_time_start := none, preferred_time_end := none
   , preferred_driver_id := none, prefers_male_driver := false
   , prefers_female_driver := false }⟩

instance : Inhabited DriverRec :=
  ⟨{ id := 0, name := "", gender := none, max_stops := none
   , max_route_duration_minutes := none, home_latitude := none
   , home_longitude := none, is_active := false }⟩

/-- Lines 424 to 440: the human-readable reason string for one dropped
address. -/
def droppedReasonString (a : AddressRec) (tags : List String) : String :=
  let rs :=
    (if tags.contains "narrow_time_window" then
      ["Time window too restrictive (" ++
        (match a.preferred_time_start with | some t => clockStr t | none => "none") ++ "-" ++
        (match a.preferred_time_end with | some t => clockStr t | none => "none") ++ ")"]
     else []) ++
    (if tags.contains "high_service_time" then
      ["Service time too long (" ++ toString a.service_time_minutes ++ " min)"]
     else []) ++
    (if tags.contains "capacity_or_duration" then
      ["All drivers at capacity or route duration exceeded"]
     else [])
  if rs.isEmpty then "Capacity or duration constraints" else String.intercalate " | " rs

/-- Lines 433 to 440: the detailed record for one dropped address. -/
def mkDroppedDetail (solver : VRPSolver) (a : AddressRec) (n : ℕ) : DroppedAddressDetail :=
  let tags := ((solver.analyze_dropped_nodes [n]).lookup n).getD []
  { address_id := a.id
  , recipient_name := optOrStr a.recipient_name "Unknown"
  , street := a.street
  , reason := droppedReasonString a tags
  , time_window :=
      (match a.preferred_time_start with | some t => clockStr t | none => "none") ++ " - " ++
      (match a.preferred_time_end with | some t => clockStr t | none => "none")
  , service_time_minutes := a.service_time_minutes }

/-- Lines 404 to 450: build the dropped-address diagnostics; a dropped node
that is neither the depot nor a delivery address (a home terminal) raises the
KeyError path and aborts with 500. -/
def analyzeDroppedPhase (solver : VRPSolver) (amap : List (ℕ × AddressRec)) (solution : Solution) :
    Except ApiError (List DroppedAddressDetail) :=
  let droppedAddrNodes := solution.dropped_nodes.filter (fun n => decide (n ≠ 0))
  if droppedAddrNodes.all (fun n => (amap.lookup n).isSome) then
    .ok (droppedAddrNodes.map (fun n => mkDroppedDetail solver ((amap.lookup n).getD default) n))
  else
    .error ⟨500, .text "Error processing dropped addresses"⟩

/-- Lines 34 to 44: the route colors for map visualization. -/
def ROUTE_COLORS : List String :=
  ["#3B82F6", "#EF4444", "#10B981", "#F59E0B", "#8B5CF6", "#EC4899", "#14B8A6", "#F97316"]

/-- json.dumps of an optional geometry value. -/
def jsonDumps (o : Option String) : String :=
  match o with
  | some s => s
  | none => "null"

/-- Lines 493 to 503: the coordinates handed to the geometry lookup; for a
driver ending at home the final depot return is replaced by the home
coordinates. -/
def routeLocationsFor (locations : List (ℚ × ℚ)) (homeLocs : List (ℕ × (ℚ × ℚ)))
    (driverId : ℕ) (rd : SolvedRoute) : List (ℚ × ℚ) :=
  let locs := rd.stops.map (fun stp => locations.getD stp.1 (0, 0))
  match homeLocs.lookup driverId with
  | some hc => locs.dropLast ++ [hc]
  | none => locs

/-- Lines 505 to 522: geometry, persisted distance and persisted duration of
one route; on geometry success a home-ending route takes the oracle figures and
any other route keeps the solver figures; on geometry failure the geometry is
dropped and the solver figures are kept. -/
def routeFigures (endsAtHome : Bool) (rd : SolvedRoute) (geom : Except String GeometryData) :
    Option String × ℚ × ℚ :=
  match geom with
  | .ok g =>
    ( some (jsonDumps g.geometry)
    , if endsAtHome then g.distance_km else rd.distance_km
    , if endsAtHome then g.duration_minutes else rd.duration_minutes )
  | .error _ => (none, rd.distance_km, rd.duration_minutes)

/-- Line 529: the cumulative time of the first stop. -/
def routeStartMinutes (rd : SolvedRoute) : ℤ := (rd.stops.headD (0, 0)).2

/-- Lines 530 to 534: a home-ending route recomputes its end as start plus the
persisted duration; any other route keeps the final cumulative time. -/
def routeEndMinutes (endsAtHome : Bool) (rd : SolvedRoute) (actualDur : ℚ) : ℤ :=
  if endsAtHome then pyInt ((routeStartMinutes rd : ℚ) + actualDur)
  else (rd.stops.getLastD (0, 0)).2

/-- Lines 539 to 550: the persisted Route row for one solved route. -/
def buildRouteRec (dayId routeId i : ℕ) (driver : DriverRec) (endsAtHome : Bool)
    (rd : SolvedRoute) (geom : Except String GeometryData) (eOff : ℕ) : RouteRec :=
  let fig := routeFigures endsAtHome rd geom
  { id := routeId
  , delivery_day_id := dayId
  , driver_id := driver.id
  , route_number := i + 1
  , color := ROUTE_COLORS.getD (i % ROUTE_COLORS.length) ""
  , total_stops := rd.stops.length - 2
  , total_distance_km := fig.2.1
  , total_duration_minutes := fig.2.2
  , route_geometry := fig.1
  , start_time := format_time_from (routeStartMinutes rd) eOff
  , end_time := format_time_from (routeEndMinutes endsAtHome rd fig.2.2) eOff }

/-- Lines 554 to 587: the persisted RouteStop rows of one route; the depot and
any location outside the address map are skipped, while the enumeration index
still advances. -/
def buildRouteStops (routeId : ℕ) (amap : List (ℕ × AddressRec))
    (dist dur : List (List ℚ)) (eOff : ℕ) (rd : SolvedRoute) : List RouteStopRec :=
  rd.stops.enum.filterMap (fun jst =>
    let j := jst.1
    let locIdx := jst.2.1
    if locIdx = 0 then none else
    match amap.lookup locIdx with
    | none => none
    | some a =>
      let prevIdx := (rd.stops.getD (j - 1) (0, 0)).1
      some
        { route_id := routeId
        , address_id := a.id
        , sequence := j
        , estimated_arrival := format_time_from jst.2.2 eOff
        , estimated_departure := format_time_from (jst.2.2 + (a.service_time_minutes : ℤ)) eOff
        , distance_from_previous_km := if 0 < j then mget dist prevIdx locIdx else 0
        , duration_from_previous_minutes := if 0 < j then mget dur prevIdx locIdx else 0 })

/-- Lines 486 to 589: build the Route and RouteStop rows for every solved
route, issuing one geometry lookup per route; a failed lookup only downgrades
that route, it never aborts the run. -/
def buildDayRoutes (oracles : Oracles) (dayId routeBase : ℕ) (drivers : List DriverRec)
    (homeLocs : List (ℕ × (ℚ × ℚ))) (locations : List (ℚ × ℚ))
    (amap : List (ℕ × AddressRec)) (dist dur : List (List ℚ)) (eOff : ℕ)
    (solution : Solution) : List (RouteRec × List RouteStopRec) :=
  solution.routes.enum.map (fun ird =>
    let i := ird.1
    let rd := ird.2
    let driver := drivers.getD rd.vehicle_id default
    let endsAtHome := (homeLocs.lookup driver.id).isSome
    let geom := oracles.geometryO (routeLocationsFor locations homeLocs driver.id rd)
    ( buildRouteRec dayId (routeBase + i) i driver endsAtHome rd geom eOff
    , buildRouteStops (routeBase + i) amap dist dur eOff rd ))

/-- Fresh DeliveryDay primary key. -/
def newDayId (db : Db) : ℕ := (db.delivery_days.map (fun d => d.id)).foldr max 0 + 1

/-- Fresh Route primary key base. -/
def newRouteIdBase (db : Db) : ℕ := (db.routes.map (fun r => r.id)).foldr max 0 + 1

/-- Lines 476 to 482: the day-level statistics written before the routes. -/
def updateDayStats (day : DeliveryDayRec) (addrCount : ℕ) (solution : Solution) : DeliveryDayRec :=
  { day with
    status := "optimized"
  , total_stops := (addrCount : ℤ) - (solution.dropped_nodes.length : ℤ)
  , total_drivers := solution.num_routes
  , total_distance_km := solution.total_distance_km
  , total_duration_minutes := solution.total_duration_minutes }

/-- Lines 452 to 474 and 591: the replace-all write of one delivery day; the
existing routes of the day (and their stops, by cascade) are removed, the day
row is updated or inserted, and the new rows are appended, all in the one
commit at line 591. -/
def persistDay (db : Db) (day : DeliveryDayRec) (created : List (RouteRec × List RouteStopRec)) : Db :=
  let removedIds := ((db.routes.filter (fun r => decide (r.delivery_day_id = day.id))).map (fun r => r.id))
  { db with
    delivery_days := db.delivery_days.filter (fun d => decide (d.id ≠ day.id)) ++ [day]
  , routes := db.routes.filter (fun r => decide (r.delivery_day_id ≠ day.id)) ++ created.map Prod.fst
  , route_stops := db.route_stops.filter (fun stp => decide (stp.route_id ∉ removedIds))
      ++ (created.map Prod.snd).flatten }

/-- Lines 452 to 591: locate or create the delivery day (scalar_one_or_none
fails on a duplicate date), update its statistics, build the route rows, and
apply the replace-all write. -/
def persistPhase (st : AppSettings) (oracles : Oracles) (req : OptimizationRequest) (db : Db)
    (addrs : List AddressRec) (drivers : List DriverRec) (homeLocs : List (ℕ × (ℚ × ℚ)))
    (locations : List (ℚ × ℚ)) (amap : List (ℕ × AddressRec)) (dist dur : List (List ℚ))
    (solution : Solution) : Except ApiError (Db × DeliveryDayRec) :=
  if 2 ≤ (db.delivery_days.filter (fun d => decide (d.date = req.date))).length then
    .error ⟨500, .text "Multiple delivery days found for date"⟩
  else
    let day0 :=
      match db.delivery_days.find? (fun d => decide (d.date = req.date)) with
      | some existing => existing
      | none =>
        { id := newDayId db
        , date := req.date
        , depot_latitude := some st.default_depot_latitude
        , depot_longitude := some st.default_depot_longitude
        , depot_address := some st.default_depot_address
        , status := "draft"
        , total_stops := 0
        , total_drivers := 0
        , total_distance_km := 0
        , total_duration_minutes := 0 }
    let day := updateDayStats day0 addrs.length solution
    let eOff := earliestStart req drivers
    let created := buildDayRoutes oracles day.id (newRouteIdBase db) drivers homeLocs
      locations amap dist dur eOff solution
    .ok (persistDay db day created, day)

/-- Lines 601 to 605: the dropped address ids of the response (the depot index
is filtered out; every remaining index is a delivery address when the run
reaches this point). -/
def droppedAddressIds (amap : List (ℕ × AddressRec)) (dropped : List ℕ) : List ℕ :=
  (dropped.filter (fun n => decide (n ≠ 0))).map (fun idx => ((amap.lookup idx).getD default).id)

/-- Lines 593 to 620: the response, with the routes re-queried from the updated
database. -/
def buildResponse (db2 : Db) (day : DeliveryDayRec) (amap : List (ℕ × AddressRec))
    (addrCount : ℕ) (solution : Solution) (details : List DroppedAddressDetail) :
    OptimizationResultResp :=
  let created := db2.routes.filter (fun r => decide (r.delivery_day_id = day.id))
  { delivery_day_id := day.id
  , date := day.date
  , status := day.status
  , total_routes := created.length
  , total_stops := day.total_stops
  , total_distance_km := day.total_distance_km
  , total_duration_minutes := day.total_duration_minutes
  , routes := created
  , dropped_addresses := droppedAddressIds amap solution.dropped_nodes
  , dropped_address_details := details
  , message := "Successfully optimized " ++ toString addrCount ++ " addresses into "
      ++ toString created.length ++ " routes" }

/-- routers/optimization.optimize_routes, lines 47 to 620, as one pipeline over
the database state and the external oracles. -/
def optimizeCore (st : AppSettings) (oracles : Oracles) (req : OptimizationRequest) (db : Db) :
    Except ApiError (Db × OptimizationResultResp) :=
  match validateAddresses db req with
  | .error e => .error e
  | .ok addrs =>
  match validateDrivers db req with
  | .error e => .error e
  | .ok drivers =>
  match driversEndingAtHome req drivers with
  | .error e => .error e
  | .ok homeLocs =>
  let amap := addressMap addrs
  match validateScan (scanConstraints db drivers amap) with
  | .error e => .error e
  | .ok constraints =>
  let locations := buildLocations st addrs homeLocs
  match fetchMatrix oracles locations with
  | .error e => .error e
  | .ok (dist, dur) =>
  let solver := buildSolver req drivers addrs homeLocs constraints dist dur
  match preSolveChecks addrs locations dist with
  | .error e => .error e
  | .ok _ =>
  match runSolver oracles solver req with
  | .error e => .error e
  | .ok solution =>
  match analyzeDroppedPhase solver amap solution with
  | .error e => .error e
  | .ok details =>
  match persistPhase st oracles req db addrs drivers homeLocs locations amap dist dur solution with
  | .error e => .error e
  | .ok (db2, day) =>
  .ok (db2, buildResponse db2 day amap addrs.length solution details)

/-- The endpoint outcome: an error rolls the transaction back, leaving the
database unchanged; success returns the committed state and the response. -/
def optimize_routes (st : AppSettings) (oracles : Oracles) (req : OptimizationRequest) (db : Db) :
    Db × Except ApiError OptimizationResultResp :=
  match optimizeCore st oracles req db with
  | .error e => (db, .error e)
  | .ok (db2, resp) => (db2, .ok resp)

/-! ## Theorems -/

/-! ### Claim C7: effective per-vehicle limits -/

/-- The effective max-stops rule exactly as the claim words it: the
request-level override value when present, else the stored driver default, else
the fixed fallback of 15. -/
def claimedMaxStops (req : OptimizationRequest) (d : DriverRec) : ℕ :=
  match (dcGet req d.id).bind (fun c => c.max_stops) with
  | some v => v
  | none =>
    match d.max_stops with
    | some v => v
    | none => 15

/-- The effective max-duration rule exactly as the claim words it, with the
fixed fallback of 120. -/
def claimedMaxDuration (req : OptimizationRequest) (d : DriverRec) : ℕ :=
  match (dcGet req d.id).bind (fun c => c.max_route_duration_minutes) with
  | some v => v
  | none =>
    match d.max_route_duration_minutes with
    | some v => v
    | none => 120

/-- A driver with stored defaults and a request constraints entry whose limit
fields are unset. -/
def c7driver : DriverRec :=
  { id := 1, name := "A", gender := none, max_stops := some 20
  , max_route_duration_minutes := some 90, home_latitude := none
  , home_longitude := none, is_active := true }

def c7req : OptimizationRequest :=
  { date := 0, address_ids := [], driver_ids := [1], start_time := 540
  , driver_constraints := some [(1,
      { max_stops := none, max_route_duration_minutes := none
      , start_time := none, end_at_home := false })]
  , time_limit_seconds := 30 }

/-- C7 counterexample: when a driver has a request constraints entry whose
max-stops field is unset, the code falls back to 15 directly, while the
claimed chain would take the stored driver default of 20; likewise 120 against
the stored 90 for the duration. -/
theorem claim_C7_counterexample :
    computeCapacities c7req [c7driver] = [15] ∧
    claimedMaxStops c7req c7driver = 20 ∧
    computeMaxDurations c7req [c7driver] = [120] ∧
    claimedMaxDuration c7req c7driver = 90 ∧
    computeCapacities c7req [c7driver] ≠ [claimedMaxStops c7req c7driver] := by
  refine ⟨rfl, rfl, rfl, rfl, ?_⟩
  decide

/-- The amended max-stops rule: with a request constraints entry the entry
value when set and otherwise the fixed 15 (the stored driver default is
ignored); without an entry the stored driver default when set and nonzero, and
otherwise 15. -/
def amendedMaxStops (req : OptimizationRequest) (d : DriverRec) : ℕ :=
  match dcGet req d.id with
  | some c =>
    match c.max_stops with
    | some v => v
    | none => 15
  | none =>
    match d.max_stops with
    | some v => if v = 0 then 15 else v
    | none => 15

/-- The amended max-duration rule, with 120 in place of 15. -/
def amendedMaxDuration (req : OptimizationRequest) (d : DriverRec) : ℕ :=
  match dcGet req d.id with
  | some c =>
    match c.max_route_duration_minutes with
    | some v => v
    | none => 120
  | none =>
    match d.max_route_duration_minutes with
    | some v => if v = 0 then 120 else v
    | none => 120

theorem getD_map_of_lt {α β : Type} [Inhabited α] (f : α → β) (l : List α) (i : ℕ) (b : β)
    (h : i < l.length) : (l.map f).getD i b = f (l.getD i default) := by
  induction l generalizing i with
  | nil => simp at h
  | cons a t ih =>
    cases i with
    | zero => simp [List.getD]
    | succ n =>
      simp only [List.map_cons, List.getD_cons_succ]
      exact ih n (by simpa using Nat.lt_of_succ_lt_succ h)

/-- C7 (amended): the effective per-vehicle max stops and max route duration
passed to the solver follow the amended rule at every vehicle index. -/
theorem claim_C7_effective_limits (req : OptimizationRequest) (drivers : List DriverRec)
    (i : ℕ) (hi : i < drivers.length) :
    (computeCapacities req drivers).getD i 0 = amendedMaxStops req (drivers.getD i default) ∧
    (computeMaxDurations req drivers).getD i 0 = amendedMaxDuration req (drivers.getD i default) := by
  constructor
  · rw [computeCapacities, getD_map_of_lt _ _ _ _ hi]
    generalize drivers.getD i default = d
    rcases hc : dcGet req d.id with _ | c
    · rcases hs : d.max_stops with _ | v <;>
        simp [amendedMaxStops, hc, hs, optOrNat, pyOrNat]
    · rcases hs : c.max_stops with _ | v <;> simp [amendedMaxStops, hc, hs]
  · rw [computeMaxDurations, getD_map_of_lt _ _ _ _ hi]
    generalize drivers.getD i default = d
    rcases hc : dcGet req d.id with _ | c
    · rcases hs : d.max_route_duration_minutes with _ | v <;>
        simp [amendedMaxDuration, hc, hs, optOrNat, pyOrNat]
    · rcases hs : c.max_route_duration_minutes with _ | v <;> simp [amendedMaxDuration, hc, hs]

theorem claim_C7_effective_limits_witness :
    (computeCapacities c7req [c7driver]).getD 0 0 = amendedMaxStops c7req c7driver ∧
    (computeMaxDurations c7req [c7driver]).getD 0 0 = amendedMaxDuration c7req c7driver :=
  claim_C7_effective_limits c7req [c7driver] 0 (by decide)

/-! ### Claim C8: home-ending route figures from the Distance Oracle -/

/-- C8: for a home-ending route the persisted figures come from the Distance
Oracle when the geometry lookup succeeds, with the end time recomputed as
start plus the oracle duration; on a failed lookup the route keeps the solver
figures and loses only its geometry; and the route-building pass always
produces one row per solved route, whatever the geometry oracle answers. -/
theorem claim_C8_home_route_figures (rd : SolvedRoute) (g : GeometryData) (e : String)
    (dayId routeId i : ℕ) (driver : DriverRec) (eOff : ℕ) :
    (buildRouteRec dayId routeId i driver true rd (.ok g) eOff).total_distance_km = g.distance_km ∧
    (buildRouteRec dayId routeId i driver true rd (.ok g) eOff).total_duration_minutes = g.duration_minutes ∧
    (buildRouteRec dayId routeId i driver true rd (.ok g) eOff).end_time =
      format_time_from (pyInt ((routeStartMinutes rd : ℚ) + g.duration_minutes)) eOff ∧
    (buildRouteRec dayId routeId i driver true rd (.error e) eOff).route_geometry = none ∧
    (buildRouteRec dayId routeId i driver true rd (.error e) eOff).total_distance_km = rd.distance_km ∧
    (buildRouteRec dayId routeId i driver true rd (.error e) eOff).total_duration_minutes = rd.duration_minutes ∧
    (buildRouteRec dayId routeId i driver true rd (.error e) eOff).end_time =
      format_time_from (pyInt ((routeStartMinutes rd : ℚ) + rd.duration_minutes)) eOff ∧
    ∀ (oracles : Oracles) (dayId2 base : ℕ) (drivers : List DriverRec)
      (homeLocs : List (ℕ × (ℚ × ℚ))) (locations : List (ℚ × ℚ))
      (amap : List (ℕ × AddressRec)) (dist dur : List (List ℚ)) (eOff2 : ℕ)
      (solution : Solution),
      (buildDayRoutes oracles dayId2 base drivers homeLocs locations amap dist dur eOff2 solution).length
        = solution.routes.length := by
  refine ⟨rfl, rfl, ?_, rfl, rfl, rfl, ?_, ?_⟩
  · simp [buildRouteRec, routeFigures, routeEndMinutes]
  · simp [buildRouteRec, routeFigures, routeEndMinutes]
  · intro oracles dayId2 base drivers homeLocs locations amap dist dur eOff2 solution
    simp [buildDayRoutes]

/-! ### Claim C6: end-at-home without home coordinates -/

/-- A driver whose request entry flags end-at-home while the stored home
coordinates are falsy. -/
def offendingHome (req : OptimizationRequest) (d : DriverRec) : Prop :=
  ∃ c, dcGet req d.id = some c ∧ c.end_at_home = true ∧
    (qTruthy d.home_latitude && qTruthy d.home_longitude) = false

def homeErrMsg (d : DriverRec) : String :=
  "Driver " ++ d.name ++ " has end at home enabled but no home address configured"

theorem endingAtHome_error (req : OptimizationRequest) :
    ∀ l : List DriverRec, (∃ d ∈ l, offendingHome req d) →
      ∃ d ∈ l, offendingHome req d ∧
        driversEndingAtHome req l = .error ⟨400, .text (homeErrMsg d)⟩ := by
  intro l
  induction l with
  | nil => rintro ⟨d, hd, _⟩; simp at hd
  | cons d rest ih =>
    rintro ⟨d0, hd0, hoff⟩
    rcases List.mem_cons.mp hd0 with h | h
    · subst h
      obtain ⟨c, hc, he, hq⟩ := hoff
      refine ⟨d0, List.mem_cons_self _ _, ⟨c, hc, he, hq⟩, ?_⟩
      simp [driversEndingAtHome, hc, he, hq, homeErrMsg]
    · rcases hc : dcGet req d.id with _ | c
      · obtain ⟨d1, hd1, hoff1, herr1⟩ := ih ⟨d0, h, hoff⟩
        exact ⟨d1, List.mem_cons_of_mem _ hd1, hoff1,
          by simpa [driversEndingAtHome, hc] using herr1⟩
      · by_cases he : c.end_at_home = true
        · by_cases hq : (qTruthy d.home_latitude && qTruthy d.home_longitude) = true
          · obtain ⟨d1, hd1, hoff1, herr1⟩ := ih ⟨d0, h, hoff⟩
            refine ⟨d1, List.mem_cons_of_mem _ hd1, hoff1, ?_⟩
            simp [driversEndingAtHome, hc, he, hq, herr1]
          · have hfq : (qTruthy d.home_latitude && qTruthy d.home_longitude) = false := by
              revert hq; cases qTruthy d.home_latitude && qTruthy d.home_longitude <;> simp
            exact ⟨d, List.mem_cons_self _ _, ⟨c, hc, he, hfq⟩,
              by simp [driversEndingAtHome, hc, he, hfq, homeErrMsg]⟩
        · have he2 : c.end_at_home = false := by
            revert he; cases c.end_at_home <;> simp
          obtain ⟨d1, hd1, hoff1, herr1⟩ := ih ⟨d0, h, hoff⟩
          exact ⟨d1, List.mem_cons_of_mem _ hd1, hoff1,
            by simpa [driversEndingAtHome, hc, he2] using herr1⟩

/-- C6: a driver flagged to end at home without stored home coordinates fails
the whole request with a 400 before the solver or the Distance Oracle is ever
consulted (the oracles are arbitrary), and the database is left unchanged. -/
theorem claim_C6_end_at_home_validation (st : AppSettings) (oracles : Oracles)
    (req : OptimizationRequest) (db : Db) (addrs : List AddressRec) (drivers : List DriverRec)
    (ha : validateAddresses db req = .ok addrs)
    (hd : validateDrivers db req = .ok drivers)
    (hbad : ∃ d ∈ drivers, offendingHome req d) :
    (optimize_routes st oracles req db).1 = db ∧
    ∃ d ∈ drivers, offendingHome req d ∧
      (optimize_routes st oracles req db).2 = .error ⟨400, .text (homeErrMsg d)⟩ := by
  obtain ⟨d, hdmem, hoff, herr⟩ := endingAtHome_error req drivers hbad
  have hcore : optimizeCore st oracles req db = .error ⟨400, .text (homeErrMsg d)⟩ := by
    simp only [optimizeCore, ha, hd, herr]
  refine ⟨?_, d, hdmem, hoff, ?_⟩ <;> simp [optimize_routes, hcore]

def stA : AppSettings :=
  { default_depot_latitude := 44, default_depot_longitude := -93
  , default_depot_address := "depot" }

def trivialOracles : Oracles :=
  { matrixO := fun _ => .error "down"
  , solveO := fun _ _ => none
  , geometryO := fun _ => .error "down" }

def c6addr : AddressRec :=
  { id := 1, street := "S", recipient_name := none, is_active := true
  , latitude := some 10, longitude := some 10, service_time_minutes := 5
  , preferred_time_start := none, preferred_time_end := none
  , preferred_driver_id := none, prefers_male_driver := false
  , prefers_female_driver := false }

def c6driver : DriverRec :=
  { id := 2, name := "B", gender := none, max_stops := none
  , max_route_duration_minutes := none, home_latitude := none
  , home_longitude := none, is_active := true }

def c6entry : DriverConstraints :=
  { max_stops := none, max_route_duration_minutes := none
  , start_time := none, end_at_home := true }

def c6req : OptimizationRequest :=
  { date := 5, address_ids := [1], driver_ids := [2], start_time := 540
  , driver_constraints := some [(2, c6entry)], time_limit_seconds := 30 }

def c6db : Db :=
  { addresses := [c6addr], drivers := [c6driver], delivery_days := []
  , routes := [], route_stops := [] }

theorem claim_C6_end_at_home_validation_witness :
    (optimize_routes stA trivialOracles c6req c6db).1 = c6db ∧
    ∃ d ∈ [c6driver], offendingHome c6req d ∧
      (optimize_routes stA trivialOracles c6req c6db).2 = .error ⟨400, .text (homeErrMsg d)⟩ :=
  claim_C6_end_at_home_validation stA trivialOracles c6req c6db [c6addr] [c6driver]
    rfl rfl ⟨c6driver, List.mem_singleton.mpr rfl, c6entry, rfl, rfl, rfl⟩

/-! ### Claim C2: preferred-driver validation -/

theorem scan_pref_mono (db : Db) (drivers : List DriverRec) (hd : ℕ × AddressRec)
    (rest : List (ℕ × AddressRec)) :
    ∀ x ∈ (scanConstraints db drivers rest).prefErrors,
      x ∈ (scanConstraints db drivers (hd :: rest)).prefErrors := by
  intro x hx
  rcases hd with ⟨li, a⟩
  rcases hp : a.preferred_driver_id with _ | pid
  · simp only [scanConstraints, hp]
    split_ifs <;> exact hx
  · simp only [scanConstraints, hp]
    split_ifs
    · exact hx
    · exact List.mem_cons_of_mem _ hx

theorem scan_pref_mem (db : Db) (drivers : List DriverRec) :
    ∀ (lst : List (ℕ × AddressRec)) (li : ℕ) (a : AddressRec) (pid : ℕ),
      (li, a) ∈ lst → a.preferred_driver_id = some pid →
      (drivers.map (fun d => d.id)).contains pid = false →
      mkPrefError db a pid ∈ (scanConstraints db drivers lst).prefErrors := by
  intro lst
  induction lst with
  | nil => intro li a pid h; simp at h
  | cons hd rest ih =>
    intro li a pid hmem hp hc
    rcases List.mem_cons.mp hmem with h | h
    · subst h
      simp only [scanConstraints, hp, hc, Bool.false_eq_true, if_false]
      exact List.mem_cons_self _ _
    · exact scan_pref_mono db drivers hd rest _ (ih li a pid h hp hc)

/-- C2: when any selected address has a stored preferred driver outside the
selected driver set, the whole request fails with a 400 whose detail carries
the full list of structured records (address id, recipient name, street,
preferred driver id and name), one record per offending address; the solver
and the oracles are never consulted (they are arbitrary) and the database is
unchanged. -/
theorem claim_C2_preferred_driver_validation (st : AppSettings) (oracles : Oracles)
    (req : OptimizationRequest) (db : Db) (addrs : List AddressRec)
    (drivers : List DriverRec) (homeLocs : List (ℕ × (ℚ × ℚ)))
    (ha : validateAddresses db req = .ok addrs)
    (hd : validateDrivers db req = .ok drivers)
    (hh : driversEndingAtHome req drivers = .ok homeLocs)
    (hbad : ∃ la ∈ addressMap addrs, ∃ pid, la.2.preferred_driver_id = some pid ∧
      (drivers.map (fun d => d.id)).contains pid = false) :
    (optimize_routes st oracles req db).1 = db ∧
    (optimize_routes st oracles req db).2 =
      .error ⟨400, .preferredDrivers preferredDriverFailureMsg
        (scanConstraints db drivers (addressMap addrs)).prefErrors⟩ ∧
    ∀ la ∈ addressMap addrs, ∀ pid, la.2.preferred_driver_id = some pid →
      (drivers.map (fun d => d.id)).contains pid = false →
      mkPrefError db la.2 pid ∈ (scanConstraints db drivers (addressMap addrs)).prefErrors := by
  obtain ⟨⟨li0, a0⟩, hmem0, pid0, hp0, hc0⟩ := hbad
  have hne : (scanConstraints db drivers (addressMap addrs)).prefErrors ≠ [] :=
    List.ne_nil_of_mem (scan_pref_mem db drivers _ li0 a0 pid0 hmem0 hp0 hc0)
  have hEmpty : (scanConstraints db drivers (addressMap addrs)).prefErrors.isEmpty = false := by
    rcases hcase : (scanConstraints db drivers (addressMap addrs)).prefErrors with _ | ⟨x, xs⟩
    · exact absurd hcase hne
    · rfl
  have hscan : validateScan (scanConstraints db drivers (addressMap addrs)) =
      .error ⟨400, .preferredDrivers preferredDriverFailureMsg
        (scanConstraints db drivers (addressMap addrs)).prefErrors⟩ := by
    simp [validateScan, hEmpty]
  have hcore : optimizeCore st oracles req db =
      .error ⟨400, .preferredDrivers preferredDriverFailureMsg
        (scanConstraints db drivers (addressMap addrs)).prefErrors⟩ := by
    simp only [optimizeCore, ha, hd, hh, hscan]
  refine ⟨?_, ?_, ?_⟩
  · simp [optimize_routes, hcore]
  · simp [optimize_routes, hcore]
  · intro la hla pid hp hc
    exact scan_pref_mem db drivers _ la.1 la.2 pid (by simpa using hla) hp hc

def c2addr : AddressRec :=
  { id := 3, street := "T", recipient_name := some "R", is_active := true
  , latitude := some 10, longitude := some 10, service_time_minutes := 5
  , preferred_time_start := none, preferred_time_end := none
  , preferred_driver_id := some 99, prefers_male_driver := false
  , prefers_female_driver := false }

def c2req : OptimizationRequest :=
  { date := 5, address_ids := [3], driver_ids := [2], start_time := 540
  , driver_constraints := none, time_limit_seconds := 30 }

def c2db : Db :=
  { addresses := [c2addr], drivers := [c6driver], delivery_days := []
  , routes := [], route_stops := [] }

theorem claim_C2_preferred_driver_validation_witness :
    (optimize_routes stA trivialOracles c2req c2db).1 = c2db ∧
    (optimize_routes stA trivialOracles c2req c2db).2 =
      .error ⟨400, .preferredDrivers preferredDriverFailureMsg
        (scanConstraints c2db [c6driver] (addressMap [c2addr])).prefErrors⟩ ∧
    ∀ la ∈ addressMap [c2addr], ∀ pid, la.2.preferred_driver_id = some pid →
      ([c6driver].map (fun d => d.id)).contains pid = false →
      mkPrefError c2db la.2 pid ∈ (scanConstraints c2db [c6driver] (addressMap [c2addr])).prefErrors :=
  claim_C2_preferred_driver_validation stA trivialOracles c2req c2db [c2addr] [c6driver] []
    rfl rfl rfl ⟨(1, c2addr), by decide, 99, rfl, rfl⟩

/-! ### Claim C10: untagged drivers and gender preferences -/

theorem male_aux_mem : ∀ (l : List DriverRec) (k x : ℕ), x ∈ maleDriverIndicesAux k l →
    ∃ j, j < l.length ∧ (l.getD j default).gender = some "male" ∧ x = k + j := by
  intro l
  induction l with
  | nil => intro k x hx; simp [maleDriverIndicesAux] at hx
  | cons d rest ih =>
    intro k x hx
    rcases List.mem_append.mp hx with h | h
    · rcases hg : d.gender with _ | g
      · simp [maleDriverIndicesAux, hg] at h
      · by_cases hgm : g = "male"
        · subst hgm
          have hxk : x = k := by simpa [maleDriverIndicesAux, hg] using h
          exact ⟨0, by simp, by simpa [List.getD] using hg, by omega⟩
        · simp [maleDriverIndicesAux, hg, hgm] at h
    · obtain ⟨j, hj, hgj, hx2⟩ := ih (k + 1) x h
      exact ⟨j + 1, by simpa using Nat.succ_lt_succ hj, by simpa [List.getD] using hgj, by omega⟩

theorem female_aux_mem : ∀ (l : List DriverRec) (k x : ℕ), x ∈ femaleDriverIndicesAux k l →
    ∃ j, j < l.length ∧ (l.getD j default).gender = some "female" ∧ x = k + j := by
  intro l
  induction l with
  | nil => intro k x hx; simp [femaleDriverIndicesAux] at hx
  | cons d rest ih =>
    intro k x hx
    rcases List.mem_append.mp hx with h | h
    · rcases hg : d.gender with _ | g
      · simp [femaleDriverIndicesAux, hg] at h
      · by_cases hgm : g = "female"
        · subst hgm
          have hxk : x = k := by simpa [femaleDriverIndicesAux, hg] using h
          exact ⟨0, by simp, by simpa [List.getD] using hg, by omega⟩
        · simp [femaleDriverIndicesAux, hg, hgm] at h
    · obtain ⟨j, hj, hgj, hx2⟩ := ih (k + 1) x h
      exact ⟨j + 1, by simpa using Nat.succ_lt_succ hj, by simpa [List.getD] using hgj, by omega⟩

theorem male_indices_nil (drivers : List DriverRec)
    (h : ∀ j, j < drivers.length → (drivers.getD j default).gender ≠ some "male") :
    maleDriverIndices drivers = [] := by
  rcases hc : maleDriverIndices drivers with _ | ⟨x, xs⟩
  · rfl
  · exfalso
    have hx : x ∈ maleDriverIndicesAux 0 drivers := by
      rw [show maleDriverIndicesAux 0 drivers = maleDriverIndices drivers from rfl, hc]
      exact List.mem_cons_self _ _
    obtain ⟨j, hj, hgj, _⟩ := male_aux_mem drivers 0 x hx
    exact h j hj hgj

theorem female_indices_nil (drivers : List DriverRec)
    (h : ∀ j, j < drivers.length → (drivers.getD j default).gender ≠ some "female") :
    femaleDriverIndices drivers = [] := by
  rcases hc : femaleDriverIndices drivers with _ | ⟨x, xs⟩
  · rfl
  · exfalso
    have hx : x ∈ femaleDriverIndicesAux 0 drivers := by
      rw [show femaleDriverIndicesAux 0 drivers = femaleDriverIndices drivers from rfl, hc]
      exact List.mem_cons_self _ _
    obtain ⟨j, hj, hgj, _⟩ := female_aux_mem drivers 0 x hx
    exact h j hj hgj

theorem scan_gender_mono (db : Db) (drivers : List DriverRec) (hd : ℕ × AddressRec)
    (rest : List (ℕ × AddressRec)) :
    ∀ x ∈ (scanConstraints db drivers rest).genderErrors,
      x ∈ (scanConstraints db drivers (hd :: rest)).genderErrors := by
  intro x hx
  rcases hd with ⟨li, a⟩
  rcases hp : a.preferred_driver_id with _ | pid
  · simp only [scanConstraints, hp]
    split_ifs <;> first | exact hx | exact List.mem_cons_of_mem _ hx
  · simp only [scanConstraints, hp]
    split_ifs <;> exact hx

theorem scan_gender_mem_male (db : Db) (drivers : List DriverRec) :
    ∀ (lst : List (ℕ × AddressRec)) (li : ℕ) (a : AddressRec),
      (li, a) ∈ lst → a.preferred_driver_id = none →
      a.prefers_male_driver = true → a.prefers_female_driver = false →
      maleDriverIndices drivers = [] →
      mkGenderError a "male driver" "No male drivers available in selection" ∈
        (scanConstraints db drivers lst).genderErrors := by
  intro lst
  induction lst with
  | nil => intro li a h; simp at h
  | cons hd rest ih =>
    intro li a hmem hp hpm hpf hnil
    rcases List.mem_cons.mp hmem with h | h
    · subst h
      simp only [scanConstraints, hp, hpm, hpf, hnil]
      simp
    · exact scan_gender_mono db drivers hd rest _ (ih li a h hp hpm hpf hnil)

theorem scan_gender_mem_female (db : Db) (drivers : List DriverRec) :
    ∀ (lst : List (ℕ × AddressRec)) (li : ℕ) (a : AddressRec),
      (li, a) ∈ lst → a.preferred_driver_id = none →
      a.prefers_female_driver = true → a.prefers_male_driver = false →
      femaleDriverIndices drivers = [] →
      mkGenderError a "female driver" "No female drivers available in selection" ∈
        (scanConstraints db drivers lst).genderErrors := by
  intro lst
  induction lst with
  | nil => intro li a h; simp at h
  | cons hd rest ih =>
    intro li a hmem hp hpf hpm hnil
    rcases List.mem_cons.mp hmem with h | h
    · subst h
      simp only [scanConstraints, hp, hpm, hpf, hnil]
      simp
    · exact scan_gender_mono db drivers hd rest _ (ih li a h hp hpf hpm hnil)

theorem scan_constraints_shape (db : Db) (drivers : List DriverRec) :
    ∀ (lst : List (ℕ × AddressRec)) (e : ℕ × List ℕ),
      e ∈ (scanConstraints db drivers lst).constraints →
      (∃ a pid, (e.1, a) ∈ lst ∧ a.preferred_driver_id = some pid ∧
        e.2 = [driverIdToVehicleIdx drivers pid]) ∨
      (∃ a, (e.1, a) ∈ lst ∧ a.preferred_driver_id = none ∧
        (e.2 = maleDriverIndices drivers ∨ e.2 = femaleDriverIndices drivers)) := by
  intro lst
  induction lst with
  | nil => intro e he; simp [scanConstraints] at he
  | cons hd rest ih =>
    intro e he
    rcases hd with ⟨lj, b⟩
    have lift :
        (∃ a pid, (e.1, a) ∈ rest ∧ a.preferred_driver_id = some pid ∧
          e.2 = [driverIdToVehicleIdx drivers pid]) ∨
        (∃ a, (e.1, a) ∈ rest ∧ a.preferred_driver_id = none ∧
          (e.2 = maleDriverIndices drivers ∨ e.2 = femaleDriverIndices drivers)) →
        (∃ a pid, (e.1, a) ∈ (lj, b) :: rest ∧ a.preferred_driver_id = some pid ∧
          e.2 = [driverIdToVehicleIdx drivers pid]) ∨
        (∃ a, (e.1, a) ∈ (lj, b) :: rest ∧ a.preferred_driver_id = none ∧
          (e.2 = maleDriverIndices drivers ∨ e.2 = femaleDriverIndices drivers)) := by
      rintro (⟨a, pid, hm, h1, h2⟩ | ⟨a, hm, h1, h2⟩)
      · exact Or.inl ⟨a, pid, List.mem_cons_of_mem _ hm, h1, h2⟩
      · exact Or.inr ⟨a, List.mem_cons_of_mem _ hm, h1, h2⟩
    rcases hp : b.preferred_driver_id with _ | pid
    · by_cases hpm : b.prefers_male_driver && !b.prefers_female_driver
      · by_cases hnil : (maleDriverIndices drivers).isEmpty
        · refine lift (ih e ?_)
          simpa [scanConstraints, hp, hpm, hnil] using he
        · have he2 : e = (lj, maleDriverIndices drivers) ∨
              e ∈ (scanConstraints db drivers rest).constraints := by
            have := he
            simp only [scanConstraints, hp, hpm, hnil] at this
            simpa using List.mem_cons.mp this
          rcases he2 with h | h
          · subst h
            refine Or.inr ⟨b, List.mem_cons_self _ _, hp, Or.inl rfl⟩
          · exact lift (ih e h)
      · by_cases hpf : b.prefers_female_driver && !b.prefers_male_driver
        · by_cases hnil : (femaleDriverIndices drivers).isEmpty
          · refine lift (ih e ?_)
            simpa [scanConstraints, hp, hpm, hpf, hnil] using he
          · have he2 : e = (lj, femaleDriverIndices drivers) ∨
                e ∈ (scanConstraints db drivers rest).constraints := by
              have := he
              simp only [scanConstraints, hp, hpm, hpf, hnil] at this
              simpa using List.mem_cons.mp this
            rcases he2 with h | h
            · subst h
              refine Or.inr ⟨b, List.mem_cons_self _ _, hp, Or.inr rfl⟩
            · exact lift (ih e h)
        · refine lift (ih e ?_)
          simpa [scanConstraints, hp, hpm, hpf] using he
    · by_cases hcont : ((drivers.map (fun d => d.id)).contains pid) = true
      · have hthis := he
        simp only [scanConstraints, hp] at hthis
        rw [if_pos hcont] at hthis
        rcases List.mem_cons.mp hthis with h | h
        · subst h
          exact Or.inl ⟨b, pid, List.mem_cons_self _ _, hp, rfl⟩
        · exact lift (ih e h)
      · have hthis := he
        simp only [scanConstraints, hp] at hthis
        rw [if_neg hcont] at hthis
        exact lift (ih e hthis)

/-- C10: a driver whose gender tag is neither exactly male nor exactly female
is never placed in a male or a female vehicle-index list, hence never in an
allowed set derived from a gender preference; and when only such drivers are
selected, a stop with a strict gender preference makes the request fail
validation with a 400. -/
theorem claim_C10_untagged_gender_drivers (db : Db) (drivers : List DriverRec) (i : ℕ)
    (hm : (drivers.getD i default).gender ≠ some "male")
    (hfem : (drivers.getD i default).gender ≠ some "female") :
    i ∉ maleDriverIndices drivers ∧
    i ∉ femaleDriverIndices drivers ∧
    (∀ (lst : List (ℕ × AddressRec)) (e : ℕ × List ℕ),
       e ∈ (scanConstraints db drivers lst).constraints →
       (∀ a, (e.1, a) ∈ lst → a.preferred_driver_id = none) → i ∉ e.2) ∧
    (∀ (lst : List (ℕ × AddressRec)),
       (∀ j, j < drivers.length → (drivers.getD j default).gender ≠ some "male" ∧
          (drivers.getD j default).gender ≠ some "female") →
       (∃ la ∈ lst, la.2.preferred_driver_id = none ∧
          ((la.2.prefers_male_driver = true ∧ la.2.prefers_female_driver = false) ∨
           (la.2.prefers_female_driver = true ∧ la.2.prefers_male_driver = false))) →
       ∃ detail, validateScan (scanConstraints db drivers lst) = .error ⟨400, detail⟩) := by
  have hmale : i ∉ maleDriverIndices drivers := by
    intro hx
    obtain ⟨j, hj, hgj, hij⟩ := male_aux_mem drivers 0 i hx
    have hij2 : i = j := by omega
    exact hm (by rw [hij2]; exact hgj)
  have hfemale : i ∉ femaleDriverIndices drivers := by
    intro hx
    obtain ⟨j, hj, hgj, hij⟩ := female_aux_mem drivers 0 i hx
    have hij2 : i = j := by omega
    exact hfem (by rw [hij2]; exact hgj)
  refine ⟨hmale, hfemale, ?_, ?_⟩
  · intro lst e he hnone
    rcases scan_constraints_shape db drivers lst e he with ⟨a, pid, hmem, h1, _⟩ | ⟨a, hmem, h1, h2⟩
    · exact absurd (hnone a hmem) (by simp [h1])
    · rcases h2 with h2 | h2
      · rw [h2]; exact hmale
      · rw [h2]; exact hfemale
  · intro lst hall ⟨la, hla, hnone, hpref⟩
    have hmnil : maleDriverIndices drivers = [] :=
      male_indices_nil drivers (fun j hj => (hall j hj).1)
    have hfnil : femaleDriverIndices drivers = [] :=
      female_indices_nil drivers (fun j hj => (hall j hj).2)
    have hge : (scanConstraints db drivers lst).genderErrors ≠ [] := by
      rcases hpref with ⟨h1, h2⟩ | ⟨h1, h2⟩
      · exact List.ne_nil_of_mem (scan_gender_mem_male db drivers lst la.1 la.2
          (by simpa using hla) hnone h1 h2 hmnil)
      · exact List.ne_nil_of_mem (scan_gender_mem_female db drivers lst la.1 la.2
          (by simpa using hla) hnone h1 h2 hfnil)
    by_cases hp : (scanConstraints db drivers lst).prefErrors.isEmpty
    · have hgeb : (scanConstraints db drivers lst).genderErrors.isEmpty = false := by
        rcases hcase : (scanConstraints db drivers lst).genderErrors with _ | _
        · exact absurd hcase hge
        · rfl
      exact ⟨.genderPreferences genderFailureMsg (scanConstraints db drivers lst).genderErrors,
        by simp [validateScan, hp, hgeb]⟩
    · have hpb : (scanConstraints db drivers lst).prefErrors.isEmpty = false := by
        revert hp; cases (scanConstraints db drivers lst).prefErrors.isEmpty <;> simp
      exact ⟨.preferredDrivers preferredDriverFailureMsg (scanConstraints db drivers lst).prefErrors,
        by simp [validateScan, hpb]⟩

def c10addr : AddressRec :=
  { id := 4, street := "U", recipient_name := none, is_active := true
  , latitude := some 10, longitude := some 10, service_time_minutes := 5
  , preferred_time_start := none, preferred_time_end := none
  , preferred_driver_id := none, prefers_male_driver := false
  , prefers_female_driver := true }

theorem claim_C10_untagged_gender_drivers_witness :
    0 ∉ maleDriverIndices [c6driver] ∧
    0 ∉ femaleDriverIndices [c6driver] ∧
    (∀ (lst : List (ℕ × AddressRec)) (e : ℕ × List ℕ),
       e ∈ (scanConstraints c6db [c6driver] lst).constraints →
       (∀ a, (e.1, a) ∈ lst → a.preferred_driver_id = none) → 0 ∉ e.2) ∧
    (∀ (lst : List (ℕ × AddressRec)),
       (∀ j, j < [c6driver].length → ([c6driver].getD j default).gender ≠ some "male" ∧
          ([c6driver].getD j default).gender ≠ some "female") →
       (∃ la ∈ lst, la.2.preferred_driver_id = none ∧
          ((la.2.prefers_male_driver = true ∧ la.2.prefers_female_driver = false) ∨
           (la.2.prefers_female_driver = true ∧ la.2.prefers_male_driver = false))) →
       ∃ detail, validateScan (scanConstraints c6db [c6driver] lst) = .error ⟨400, detail⟩) :=
  claim_C10_untagged_gender_drivers c6db [c6driver] 0 (by decide) (by decide)

/-! ### Claim C4: per-vehicle route duration cap -/

theorem listMaxZ_mem : ∀ l : List ℤ, l ≠ [] → listMaxZ l ∈ l := by
  intro l
  induction l with
  | nil => intro h; exact absurd rfl h
  | cons x rest ih =>
    intro _
    rcases rest with _ | ⟨y, rest2⟩
    · simp [listMaxZ]
    · rcases max_choice x (listMaxZ (y :: rest2)) with h | h
      · simp [listMaxZ, h]
      · rw [show listMaxZ (x :: y :: rest2) = max x (listMaxZ (y :: rest2)) from rfl, h]
        exact List.mem_cons_of_mem _ (ih (by simp))

theorem listMaxZ_le : ∀ (l : List ℤ) (d : ℤ), d ∈ l → d ≤ listMaxZ l := by
  intro l
  induction l with
  | nil => intro d h; simp at h
  | cons x rest ih =>
    intro d h
    rcases rest with _ | ⟨y, rest2⟩
    · simp at h; simp [listMaxZ, h]
    · rw [show listMaxZ (x :: y :: rest2) = max x (listMaxZ (y :: rest2)) from rfl]
      rcases List.mem_cons.mp h with h1 | h1
      · subst h1; exact le_max_left _ _
      · exact le_trans (ih d h1) (le_max_right _ _)

theorem getLastD_cons_append {α : Type} (a b c : α) (l : List α) :
    (a :: (l ++ [b])).getLastD c = b := by
  have h : a :: (l ++ [b]) = (a :: l) ++ [b] := by simp
  rw [h, List.getLastD_concat]

/-- C4: in every extracted route the cumulative time at the final stop is
bounded by that vehicle's own configured max route duration (the per-vehicle
SetMax), while the capacity handed to the time dimension is exactly the largest
of the per-vehicle max durations. -/
theorem claim_C4_per_vehicle_duration_cap (s : VRPSolver) (sol : RawSolution)
    (hf : Feasible s sol) (hne : s.max_route_durations ≠ []) :
    (∀ r ∈ (extract_solution s sol).routes,
       (r.stops.getLastD (0, 0)).2 ≤ s.max_route_durations.getD r.vehicle_id 0) ∧
    s.max_duration_overall ∈ s.max_route_durations ∧
    (∀ d ∈ s.max_route_durations, d ≤ s.max_duration_overall) := by
  obtain ⟨-, -, -, -, -, -, -, -, h9, -, -⟩ := hf
  refine ⟨?_, listMaxZ_mem _ hne, fun d hd => listMaxZ_le _ d hd⟩
  intro r hr
  have hr2 : r ∈ (sol.plans.enum.map (fun ip => extractRoute s ip.1 ip.2)) :=
    (List.mem_filter.mp hr).1
  obtain ⟨ip, hip, hre⟩ := List.mem_map.mp hr2
  have h9ip := h9 ip hip
  simp only [endMaxOK] at h9ip
  rw [← hre]
  show (((s.depot_index, ip.2.startTime) ::
      (ip.2.visits ++ [(s.depot_index, ip.2.endTime)])).getLastD (0, 0)).2 ≤
    s.max_route_durations.getD ip.1 0
  rw [getLastD_cons_append]
  exact of_decide_eq_true h9ip

def zeroRow4 : List ℚ := [0, 0, 0, 0]

def mat4 : List (List ℚ) := [zeroRow4, zeroRow4, zeroRow4, zeroRow4]

/-- A concrete solver state with two vehicles, two delivery nodes and one home
terminal (node 3, mandatory for vehicle 1). -/
def s4 : VRPSolver :=
  { distance_matrix := mat4, duration_matrix := mat4
  , num_vehicles := 2, depot_index := 0
  , service_times := [0, 5, 5, 0]
  , time_windows := [(0, 120), (0, 120), (0, 120), (0, 120)]
  , max_route_durations := [120, 100]
  , vehicle_capacities := [15, 15]
  , vehicle_start_offsets := [0, 0]
  , mandatory_final_stops := [(1, 3)]
  , allowed_vehicles := [] }

/-- A concrete feasible assignment for s4: vehicle 0 serves node 1, vehicle 1
serves node 2 and ends at the home terminal 3. -/
def sol4 : RawSolution :=
  ⟨[⟨[(1, 0)], 0, 5⟩, ⟨[(2, 0), (3, 5)], 0, 5⟩]⟩

theorem claim_C4_per_vehicle_duration_cap_witness :
    (∀ r ∈ (extract_solution s4 sol4).routes,
       (r.stops.getLastD (0, 0)).2 ≤ s4.max_route_durations.getD r.vehicle_id 0) ∧
    s4.max_duration_overall ∈ s4.max_route_durations ∧
    (∀ d ∈ s4.max_route_durations, d ≤ s4.max_duration_overall) :=
  claim_C4_per_vehicle_duration_cap s4 sol4 (by decide) (by decide)

/-! ### Claim C5: depot and home terminals in the outputs -/

theorem mem_range_drop_one (n x : ℕ) (h : x ∈ (List.range n).drop 1) : 1 ≤ x ∧ x < n := by
  rcases n with _ | n
  · simp [List.range_zero] at h
  · rw [List.range_succ_eq_map] at h
    simp only [List.drop_succ_cons, List.drop_zero] at h
    obtain ⟨y, hy, hxy⟩ := List.mem_map.mp h
    have := List.mem_range.mp hy
    omega

theorem mandatory_visited (s : VRPSolver) (sol : RawSolution) (hf : Feasible s sol)
    (im : ℕ × ℕ) (him : im ∈ s.mandatory_final_stops) : im.2 ∈ visitedNodes sol := by
  obtain ⟨-, -, -, -, -, -, -, -, -, h10, -⟩ := hf
  have hlast := h10 im him
  have hmem : im.2 ∈ nodesOf (sol.plans.getD im.1 default) :=
    List.mem_of_getLast?_eq_some hlast
  by_cases hlt : im.1 < sol.plans.length
  · have hp : sol.plans.getD im.1 default ∈ sol.plans := by
      rw [List.getD_eq_getElem _ _ hlt]
      exact List.getElem_mem _
    exact List.mem_flatten.mpr ⟨nodesOf (sol.plans.getD im.1 default),
      List.mem_map_of_mem _ hp, hmem⟩
  · rw [List.getD_eq_default _ _ (by omega)] at hmem
    simp [nodesOf, default] at hmem

theorem lookup_mem {β : Type} (k : ℕ) (a : β) :
    ∀ l : List (ℕ × β), l.lookup k = some a → (k, a) ∈ l := by
  intro l
  induction l with
  | nil => intro h; simp [List.lookup] at h
  | cons hd rest ih =>
    intro h
    rcases hd with ⟨k1, b⟩
    by_cases hk : k = k1
    · subst hk
      have hb : b = a := by simpa [List.lookup] using h
      subst hb
      exact List.mem_cons_self _ _
    · have hk2 : (k == k1) = false := by simpa using hk
      simp only [List.lookup, hk2] at h
      exact List.mem_cons_of_mem _ (ih h)

theorem lookup_enumFrom_shift (addrs : List AddressRec) :
    ∀ (n k : ℕ),
      ((((addrs.enumFrom n).map (fun ia => (ia.1 + 1, ia.2))).lookup k).isSome = true)
        ↔ n + 1 ≤ k ∧ k ≤ n + addrs.length := by
  induction addrs with
  | nil =>
    intro n k
    simp [List.lookup]
    omega
  | cons a rest ih =>
    intro n k
    by_cases hk : k = n + 1
    · subst hk
      simp [List.enumFrom, List.lookup]
      try omega
    · have hk2 : (k == n + 1) = false := by simpa using hk
      simp only [List.enumFrom, List.map_cons, List.lookup, hk2]
      rw [ih (n + 1) k]
      simp only [List.length_cons]
      omega

theorem addressMap_lookup_isSome (addrs : List AddressRec) (k : ℕ) :
    (((addressMap addrs).lookup k).isSome = true) ↔ 1 ≤ k ∧ k ≤ addrs.length := by
  have h := lookup_enumFrom_shift addrs 0 k
  simpa [addressMap, List.enum] using h

/-- C5: the depot is never reported as a dropped node, a home terminal
(any location index past the delivery addresses, all of which are mandatory
final stops) is never reported as a dropped node, and every persisted RouteStop
row references a delivery address of the address map, never the depot or a
home terminal. -/
theorem claim_C5_terminal_nodes_not_dropped (s : VRPSolver) (sol : RawSolution)
    (addrs : List AddressRec) (H : ℕ)
    (hf : Feasible s sol)
    (hn : s.num_locations = 1 + addrs.length + H)
    (hmand : ∀ h2, 1 + addrs.length ≤ h2 → h2 < s.num_locations →
       ∃ im ∈ s.mandatory_final_stops, im.2 = h2) :
    0 ∉ (extract_solution s sol).dropped_nodes ∧
    (∀ h2, 1 + addrs.length ≤ h2 → h2 < s.num_locations →
       h2 ∉ (extract_solution s sol).dropped_nodes) ∧
    (∀ (routeId : ℕ) (dist dur : List (List ℚ)) (eOff : ℕ) (r : SolvedRoute)
       (stp : RouteStopRec), stp ∈ buildRouteStops routeId (addressMap addrs) dist dur eOff r →
       ∃ k a, (addressMap addrs).lookup k = some a ∧ stp.address_id = a.id ∧
         1 ≤ k ∧ k ≤ addrs.length) := by
  refine ⟨?_, ?_, ?_⟩
  · intro h0
    have := mem_range_drop_one s.num_locations 0 (List.mem_filter.mp h0).1
    omega
  · intro h2 hlo hhi hmem
    obtain ⟨im, him, him2⟩ := hmand h2 hlo hhi
    have hvis : h2 ∈ visitedNodes sol := him2 ▸ mandatory_visited s sol hf im him
    have hnv := (List.mem_filter.mp hmem).2
    simp only [decide_eq_true_eq] at hnv
    exact hnv hvis
  · intro routeId dist dur eOff r stp hmem
    obtain ⟨jst, hjst, hsome⟩ := List.mem_filterMap.mp hmem
    by_cases h0 : jst.2.1 = 0
    · simp only [h0, if_pos rfl] at hsome
      cases hsome
    · rcases hl : (addressMap addrs).lookup jst.2.1 with _ | a
      · rw [if_neg h0] at hsome
        simp only [hl] at hsome
        cases hsome
      · rw [if_neg h0] at hsome
        simp only [hl] at hsome
        have hbounds := (addressMap_lookup_isSome addrs jst.2.1).mp (by rw [hl]; rfl)
        refine ⟨jst.2.1, a, hl, ?_, hbounds.1, hbounds.2⟩
        cases hsome
        try rfl

def w1addr : AddressRec :=
  { id := 21, street := "W1", recipient_name := none, is_active := true
  , latitude := some 10, longitude := some 10, service_time_minutes := 5
  , preferred_time_start := none, preferred_time_end := none
  , preferred_driver_id := none, prefers_male_driver := false
  , prefers_female_driver := false }

def w2addr : AddressRec :=
  { id := 22, street := "W2", recipient_name := none, is_active := true
  , latitude := some 11, longitude := some 11, service_time_minutes := 5
  , preferred_time_start := none, preferred_time_end := none
  , preferred_driver_id := none, prefers_male_driver := false
  , prefers_female_driver := false }

def wAddrs : List AddressRec := [w1addr, w2addr]

theorem claim_C5_terminal_nodes_not_dropped_witness :
    0 ∉ (extract_solution s4 sol4).dropped_nodes ∧
    (∀ h2, 1 + wAddrs.length ≤ h2 → h2 < s4.num_locations →
       h2 ∉ (extract_solution s4 sol4).dropped_nodes) ∧
    (∀ (routeId : ℕ) (dist dur : List (List ℚ)) (eOff : ℕ) (r : SolvedRoute)
       (stp : RouteStopRec), stp ∈ buildRouteStops routeId (addressMap wAddrs) dist dur eOff r →
       ∃ k a, (addressMap wAddrs).lookup k = some a ∧ stp.address_id = a.id ∧
         1 ≤ k ∧ k ≤ wAddrs.length) :=
  claim_C5_terminal_nodes_not_dropped s4 sol4 wAddrs 1 (by decide) (by decide)
    (fun h2 hlo hhi => ⟨(1, 3), List.mem_singleton.mpr rfl, by
      have : h2 = 3 := by
        simp only [wAddrs, List.length_cons, List.length_nil] at hlo
        have h4 : s4.num_locations = 4 := rfl
        omega
      omega⟩)

/-! ### Claim C1: stop conservation -/

/-- The retention test of the RouteStop loop (lines 558 to 561): not the depot
and present in the address map. -/
def stopKeep (amap : List (ℕ × AddressRec)) (idx : ℕ) : Bool :=
  !(decide (idx = 0)) && (amap.lookup idx).isSome

/-- The location indices of a solved route that produce RouteStop rows. -/
def deliveryStopIdxs (amap : List (ℕ × AddressRec)) (r : SolvedRoute) : List ℕ :=
  (r.stops.map Prod.fst).filter (stopKeep amap)

theorem filterMap_enumFrom_length {α β : Type} (f : ℕ × α → Option β) (cond : α → Bool)
    (hf : ∀ j a, (f (j, a)).isSome = cond a) :
    ∀ (l : List α) (k : ℕ), ((l.enumFrom k).filterMap f).length = (l.filter cond).length := by
  intro l
  induction l with
  | nil => intro k; rfl
  | cons a t ih =>
    intro k
    rw [List.enumFrom_cons, List.filterMap_cons, List.filter_cons]
    rcases hfa : f (k, a) with _ | b
    · have hca : cond a = false := by rw [← hf k a, hfa]; rfl
      rw [hca]
      simpa using ih (k + 1)
    · have hca : cond a = true := by rw [← hf k a, hfa]; rfl
      rw [hca]
      simpa using ih (k + 1)

theorem buildRouteStops_length (routeId : ℕ) (amap : List (ℕ × AddressRec))
    (dist dur : List (List ℚ)) (eOff : ℕ) (r : SolvedRoute) :
    (buildRouteStops routeId amap dist dur eOff r).length = (deliveryStopIdxs amap r).length := by
  have h1 := filterMap_enumFrom_length
    (fun jst : ℕ × (ℕ × ℤ) =>
      if jst.2.1 = 0 then none else
      match amap.lookup jst.2.1 with
      | none => none
      | some a =>
        some
          ({ route_id := routeId
           , address_id := a.id
           , sequence := jst.1
           , estimated_arrival := format_time_from jst.2.2 eOff
           , estimated_departure := format_time_from (jst.2.2 + (a.service_time_minutes : ℤ)) eOff
           , distance_from_previous_km :=
               if 0 < jst.1 then mget dist (r.stops.getD (jst.1 - 1) (0, 0)).1 jst.2.1 else 0
           , duration_from_previous_minutes :=
               if 0 < jst.1 then mget dur (r.stops.getD (jst.1 - 1) (0, 0)).1 jst.2.1 else 0 } : RouteStopRec))
    (fun st => stopKeep amap st.1)
    (by
      intro j st
      by_cases h0 : st.1 = 0
      · simp [h0, stopKeep]
      · rcases hl : amap.lookup st.1 with _ | a <;> simp [h0, hl, stopKeep])
    r.stops 0
  have h2 : (r.stops.filter (fun st => stopKeep amap st.1)).length
      = ((r.stops.map Prod.fst).filter (stopKeep amap)).length := by
    rw [List.filter_map, List.length_map]
    rfl
  exact h1.trans h2

theorem deliveryStopIdxs_extract (amap : List (ℕ × AddressRec)) (s : VRPSolver) (i : ℕ)
    (p : VehiclePlan) (hd0 : s.depot_index = 0) :
    deliveryStopIdxs amap (extractRoute s i p) = (nodesOf p).filter (stopKeep amap) := by
  have h0 : stopKeep amap 0 = false := by simp [stopKeep]
  simp [deliveryStopIdxs, extractRoute, hd0, nodesOf, h0]

theorem sum_map_filter_eq {α : Type} (f : α → ℕ) (q : α → Bool) :
    ∀ l : List α, (∀ x ∈ l, q x = false → f x = 0) →
      ((l.filter q).map f).sum = (l.map f).sum := by
  intro l
  induction l with
  | nil => intro _; rfl
  | cons a t ih =>
    intro h
    rw [List.filter_cons]
    rcases hq : q a with _ | _
    · have ha : f a = 0 := h a (List.mem_cons_self _ _) hq
      simp only [Bool.false_eq_true, if_false, List.map_cons, List.sum_cons, ha, Nat.zero_add]
      exact ih (fun x hx => h x (List.mem_cons_of_mem _ hx))
    · simp only [if_true, List.map_cons, List.sum_cons]
      rw [ih (fun x hx => h x (List.mem_cons_of_mem _ hx))]

theorem sum_filter_lengths (cond : ℕ → Bool) :
    ∀ plans : List VehiclePlan,
      ((plans.map (fun p => ((nodesOf p).filter cond).length)).sum)
        = (((plans.map nodesOf).flatten).filter cond).length := by
  intro plans
  induction plans with
  | nil => rfl
  | cons p t ih =>
    simp only [List.map_cons, List.sum_cons, List.flatten_cons, List.filter_append,
      List.length_append]
    rw [ih]

theorem length_filter_add_length_filter_not {α : Type} (q : α → Bool) :
    ∀ l : List α, (l.filter q).length + (l.filter (fun x => !q x)).length = l.length := by
  intro l
  induction l with
  | nil => rfl
  | cons a t ih =>
    rw [List.filter_cons, List.filter_cons]
    rcases hq : q a with _ | _ <;> simp only [Bool.not_false, Bool.not_true, Bool.false_eq_true,
      if_false, if_true, List.length_cons] <;> omega

theorem length_filter_mem_comm (l1 l2 : List ℕ) (h1 : l1.Nodup) (h2 : l2.Nodup) :
    (l1.filter (fun x => decide (x ∈ l2))).length = (l2.filter (fun x => decide (x ∈ l1))).length := by
  have hc1 : (l1.filter (fun x => decide (x ∈ l2))).length
      = (l1.toFinset ∩ l2.toFinset).card := by
    have hnd : (l1.filter (fun x => decide (x ∈ l2))).Nodup := h1.filter _
    rw [← List.dedup_eq_self.mpr hnd, ← List.card_toFinset, List.toFinset_filter]
    congr 1
    ext x
    simp [List.mem_toFinset]
  have hc2 : (l2.filter (fun x => decide (x ∈ l1))).length
      = (l2.toFinset ∩ l1.toFinset).card := by
    have hnd : (l2.filter (fun x => decide (x ∈ l1))).Nodup := h2.filter _
    rw [← List.dedup_eq_self.mpr hnd, ← List.card_toFinset, List.toFinset_filter]
    congr 1
    ext x
    simp [List.mem_toFinset]
  rw [hc1, hc2, Finset.inter_comm]

theorem mem_range_drop_one_iff (n x : ℕ) : x ∈ (List.range n).drop 1 ↔ 1 ≤ x ∧ x < n := by
  constructor
  · exact mem_range_drop_one n x
  · rintro ⟨h1, h2⟩
    rcases n with _ | m
    · omega
    · rw [List.range_succ_eq_map]
      simp only [List.drop_succ_cons, List.drop_zero]
      rcases x with _ | y
      · omega
      · exact List.mem_map.mpr ⟨y, List.mem_range.mpr (by omega), rfl⟩

/-- C1: for every feasible assignment, the delivery stops across all
extracted routes (counting only RouteStop-producing indices, never the depot
or a home terminal) plus the reported dropped addresses equal the input
addresses; and the RouteStop rows persisted per route count exactly those
indices. -/
theorem claim_C1_stop_conservation (s : VRPSolver) (sol : RawSolution)
    (addrs : List AddressRec) (H : ℕ)
    (hf : Feasible s sol)
    (hd0 : s.depot_index = 0)
    (hn : s.num_locations = 1 + addrs.length + H)
    (hmand : ∀ h2, 1 + addrs.length ≤ h2 → h2 < s.num_locations →
       ∃ im ∈ s.mandatory_final_stops, im.2 = h2) :
    (((extract_solution s sol).routes.map
        (fun r => (deliveryStopIdxs (addressMap addrs) r).length)).sum
      + (droppedAddressIds (addressMap addrs) (extract_solution s sol).dropped_nodes).length
      = addrs.length) ∧
    (∀ (routeId : ℕ) (dist dur : List (List ℚ)) (eOff : ℕ) (r : SolvedRoute),
      (buildRouteStops routeId (addressMap addrs) dist dur eOff r).length
        = (deliveryStopIdxs (addressMap addrs) r).length) := by
  refine ⟨?_, fun routeId dist dur eOff r => buildRouteStops_length routeId _ dist dur eOff r⟩
  have hnodup : (visitedNodes sol).Nodup := hf.2.2.1
  set amap := addressMap addrs with hamap
  set A := addrs.length with hA
  set addrIdx := (List.range (1 + A)).drop 1 with haddrIdx
  set visited := visitedNodes sol with hvisited
  -- Step 1: the left sum equals the count of visited address nodes.
  have hleft : ((extract_solution s sol).routes.map
      (fun r => (deliveryStopIdxs amap r).length)).sum
      = (visited.filter (stopKeep amap)).length := by
    have hstep1 : ((extract_solution s sol).routes.map
        (fun r => (deliveryStopIdxs amap r).length)).sum
        = ((sol.plans.enum.map (fun ip => extractRoute s ip.1 ip.2)).map
            (fun r => (deliveryStopIdxs amap r).length)).sum := by
      apply sum_map_filter_eq
      intro r hr hq
      obtain ⟨ip, hip, hre⟩ := List.mem_map.mp hr
      have hlen : ¬ 2 < r.stops.length := of_decide_eq_false hq
      have hvis : ip.2.visits = [] := by
        have : r.stops.length = ip.2.visits.length + 2 := by
          rw [← hre]; simp [extractRoute]
        have hlen2 : ip.2.visits.length = 0 := by omega
        exact List.length_eq_zero.mp hlen2
      rw [← hre, deliveryStopIdxs_extract amap s ip.1 ip.2 hd0]
      simp [nodesOf, hvis]
    rw [hstep1, List.map_map]
    have hfun : ((fun r => (deliveryStopIdxs amap r).length) ∘
        (fun ip : ℕ × VehiclePlan => extractRoute s ip.1 ip.2))
        = (fun ip : ℕ × VehiclePlan => ((nodesOf ip.2).filter (stopKeep amap)).length) := by
      funext ip
      simp only [Function.comp]
      rw [deliveryStopIdxs_extract amap s ip.1 ip.2 hd0]
    rw [hfun]
    have hsnd : (sol.plans.enum.map
        (fun ip : ℕ × VehiclePlan => ((nodesOf ip.2).filter (stopKeep amap)).length))
        = sol.plans.map (fun p => ((nodesOf p).filter (stopKeep amap)).length) := by
      have : (fun ip : ℕ × VehiclePlan => ((nodesOf ip.2).filter (stopKeep amap)).length)
          = (fun p : VehiclePlan => ((nodesOf p).filter (stopKeep amap)).length) ∘ Prod.snd :=
        rfl
      rw [this, ← List.map_map]
      rw [show sol.plans.enum = sol.plans.enumFrom 0 from rfl, List.enumFrom_map_snd]
    rw [hsnd, sum_filter_lengths]
    rfl
  -- Step 2: the reported dropped addresses count the unvisited address nodes.
  have hhomevis : ∀ x ∈ (List.range H).map (fun j => (1 + A) + j), x ∈ visited := by
    intro x hx
    obtain ⟨j, hj, hxj⟩ := List.mem_map.mp hx
    have hjr := List.mem_range.mp hj
    obtain ⟨im, him, him2⟩ := hmand x (by omega) (by omega)
    exact him2 ▸ mandatory_visited s sol hf im him
  have hsplit : droppedNodes s sol
      = addrIdx.filter (fun u => decide (u ∉ visited)) := by
    rw [droppedNodes, hn, List.range_add, List.drop_append_of_le_length (by simp),
      List.filter_append]
    have hnil : ((List.range H).map (fun x => 1 + A + x)).filter
        (fun u => decide (u ∉ visited)) = [] := by
      rw [List.filter_eq_nil_iff]
      intro x hx
      simp only [decide_eq_true_eq, Decidable.not_not]
      exact hhomevis x hx
    rw [hnil, List.append_nil]
  have hdropped : (droppedAddressIds amap (extract_solution s sol).dropped_nodes).length
      = (addrIdx.filter (fun x => !(decide (x ∈ visited)))).length := by
    rw [droppedAddressIds, List.length_map]
    have hex : (extract_solution s sol).dropped_nodes = droppedNodes s sol := rfl
    rw [hex, hsplit]
    have hall : (addrIdx.filter (fun u => decide (u ∉ visited))).filter
        (fun n => decide (n ≠ 0)) = addrIdx.filter (fun u => decide (u ∉ visited)) := by
      rw [List.filter_eq_self]
      intro x hx
      have hx2 := (mem_range_drop_one_iff (1 + A) x).mp (List.mem_filter.mp hx).1
      simp only [decide_eq_true_eq]
      omega
    rw [hall]
    congr 1
    apply List.filter_congr
    intro x _
    simp
  rw [hleft, hdropped]
  -- Step 3: the two counts over the address range are complementary.
  have hcond : ∀ x ∈ visited, stopKeep amap x = decide (x ∈ addrIdx) := by
    intro x _
    have hiff := addressMap_lookup_isSome addrs x
    have hmem := mem_range_drop_one_iff (1 + A) x
    by_cases hx : 1 ≤ x ∧ x ≤ A
    · have h1 : ((amap.lookup x).isSome = true) := hiff.mpr hx
      have h2 : x ∈ addrIdx := hmem.mpr ⟨hx.1, by omega⟩
      simp [stopKeep, h1, h2]
      omega
    · have h1 : ¬ ((amap.lookup x).isSome = true) := fun hc => hx (hiff.mp hc)
      have h2 : x ∉ addrIdx := fun hc => hx ⟨(hmem.mp hc).1, by
        have := (hmem.mp hc).2; omega⟩
      rcases hi : (amap.lookup x).isSome with _ | _
      · simp [stopKeep, hi, h2]
      · exact absurd hi h1
  rw [List.filter_congr hcond]
  have haddrnodup : addrIdx.Nodup :=
    (List.drop_sublist 1 (List.range (1 + A))).nodup (List.nodup_range _)
  rw [length_filter_mem_comm visited addrIdx hnodup haddrnodup]
  have hcomp := length_filter_add_length_filter_not (fun x => decide (x ∈ visited)) addrIdx
  have hlen : addrIdx.length = A := by
    rw [haddrIdx, List.length_drop, List.length_range]
    omega
  omega

def wHomeDriver : DriverRec :=
  { id := 31, name := "H", gender := none, max_stops := none
  , max_route_duration_minutes := none, home_latitude := some 12
  , home_longitude := some 12, is_active := true }

theorem claim_C1_stop_conservation_witness :
    ((((extract_solution s4 sol4).routes.map
        (fun r => (deliveryStopIdxs (addressMap wAddrs) r).length)).sum
      + (droppedAddressIds (addressMap wAddrs) (extract_solution s4 sol4).dropped_nodes).length
      = wAddrs.length) ∧
    (∀ (routeId : ℕ) (dist dur : List (List ℚ)) (eOff : ℕ) (r : SolvedRoute),
      (buildRouteStops routeId (addressMap wAddrs) dist dur eOff r).length
        = (deliveryStopIdxs (addressMap wAddrs) r).length)) :=
  claim_C1_stop_conservation s4 sol4 wAddrs 1 (by decide) rfl (by decide)
    (fun h2 hlo hhi => ⟨(1, 3), List.mem_singleton.mpr rfl, by
      have h4 : s4.num_locations = 4 := rfl
      have hW : wAddrs.length = 2 := rfl
      omega⟩)

/-! ### Claim C9: replace-all persistence per delivery day -/

theorem le_foldr_max (x : ℕ) : ∀ l : List ℕ, x ∈ l → x ≤ l.foldr max 0 := by
  intro l
  induction l with
  | nil => intro h; simp at h
  | cons a t ih =>
    intro h
    rcases List.mem_cons.mp h with h1 | h1
    · subst h1; exact le_max_left _ _
    · exact le_trans (ih h1) (le_max_right _ _)

theorem buildDayRoutes_id_ge (oracles : Oracles) (dayId base : ℕ) (drivers : List DriverRec)
    (homeLocs : List (ℕ × (ℚ × ℚ))) (locations : List (ℚ × ℚ))
    (amap : List (ℕ × AddressRec)) (dist dur : List (List ℚ)) (eOff : ℕ)
    (solution : Solution) :
    ∀ rr ∈ (buildDayRoutes oracles dayId base drivers homeLocs locations amap dist dur
        eOff solution).map Prod.fst, base ≤ rr.id := by
  intro rr hrr
  obtain ⟨pr, hpr, hpr2⟩ := List.mem_map.mp hrr
  obtain ⟨ird, hird, hird2⟩ := List.mem_map.mp hpr
  rw [← hpr2, ← hird2]
  show base ≤ base + ird.1
  omega

/-- C9: optimizing a date that already has a delivery day is a replace-all
write scoped to that date: the updated day keeps the stored id and date, the
resulting route table is exactly the untouched routes of the other days plus
the freshly built routes of this day, every pre-existing route of the day is
gone, the day rows of other dates survive, and any error anywhere in the
pipeline leaves the database exactly as it was (the single commit happens at
the end). -/
theorem claim_C9_replace_all_persistence (st : AppSettings) (oracles : Oracles)
    (req : OptimizationRequest) (db : Db)
    (addrs : List AddressRec) (drivers : List DriverRec) (homeLocs : List (ℕ × (ℚ × ℚ)))
    (locations : List (ℚ × ℚ)) (amap : List (ℕ × AddressRec)) (dist dur : List (List ℚ))
    (solution : Solution) (db2 : Db) (day day0 : DeliveryDayRec)
    (hids : (db.delivery_days.map (fun d => d.id)).Nodup)
    (hfind : db.delivery_days.find? (fun d => decide (d.date = req.date)) = some day0)
    (hone : (db.delivery_days.filter (fun d => decide (d.date = req.date))).length ≤ 1)
    (hres : persistPhase st oracles req db addrs drivers homeLocs locations amap dist dur
      solution = .ok (db2, day)) :
    day.id = day0.id ∧ day.date = req.date ∧
    db2.routes = db.routes.filter (fun r => decide (r.delivery_day_id ≠ day0.id))
      ++ (buildDayRoutes oracles day.id (newRouteIdBase db) drivers homeLocs locations amap
            dist dur (earliestStart req drivers) solution).map Prod.fst ∧
    (∀ r ∈ db.routes, r.delivery_day_id = day0.id → r ∉ db2.routes) ∧
    (∀ d2 ∈ db.delivery_days, d2.date ≠ req.date → d2 ∈ db2.delivery_days) ∧
    (∀ e, optimizeCore st oracles req db = .error e →
       optimize_routes st oracles req db = (db, .error e)) := by
  have hif : ¬ 2 ≤ (db.delivery_days.filter (fun d => decide (d.date = req.date))).length := by
    omega
  rw [persistPhase, if_neg hif, hfind] at hres
  simp only [Except.ok.injEq, Prod.mk.injEq] at hres
  obtain ⟨hdb2, hday⟩ := hres
  subst hday
  subst hdb2
  have hdate0 : day0.date = req.date := by
    have hp := @List.find?_some DeliveryDayRec
      (fun d => decide (d.date = req.date)) day0 db.delivery_days hfind
    simpa using hp
  have hmem0 : day0 ∈ db.delivery_days := List.mem_of_find?_eq_some hfind
  refine ⟨rfl, hdate0, rfl, ?_, ?_, ?_⟩
  · intro r hr hrd hcon
    rcases List.mem_append.mp hcon with h | h
    · have := (List.mem_filter.mp h).2
      simp only [decide_eq_true_eq] at this
      exact this hrd
    · have hbase := buildDayRoutes_id_ge oracles (updateDayStats day0 addrs.length solution).id
        (newRouteIdBase db) drivers homeLocs locations amap dist dur
        (earliestStart req drivers) solution r h
      have hrle : r.id ≤ (db.routes.map (fun r2 => r2.id)).foldr max 0 :=
        le_foldr_max r.id _ (List.mem_map_of_mem _ hr)
      rw [newRouteIdBase] at hbase
      omega
  · intro d2 hd2 hdate2
    have hne : d2.id ≠ (updateDayStats day0 addrs.length solution).id := by
      show d2.id ≠ day0.id
      intro heq
      have := List.inj_on_of_nodup_map hids hd2 hmem0 heq
      rw [this] at hdate2
      exact hdate2 hdate0
    exact List.mem_append.mpr (Or.inl (List.mem_filter.mpr ⟨hd2, by
      simpa using hne⟩))
  · intro e he
    rw [optimize_routes, he]

def c9day0 : DeliveryDayRec :=
  { id := 1, date := 7, depot_latitude := none, depot_longitude := none
  , depot_address := none, status := "optimized", total_stops := 3
  , total_drivers := 1, total_distance_km := 5, total_duration_minutes := 30 }

def c9dayOther : DeliveryDayRec :=
  { id := 2, date := 8, depot_latitude := none, depot_longitude := none
  , depot_address := none, status := "optimized", total_stops := 2
  , total_drivers := 1, total_distance_km := 4, total_duration_minutes := 20 }

def c9routeOld : RouteRec :=
  { id := 1, delivery_day_id := 1, driver_id := 2, route_number := 1
  , color := "#3B82F6", total_stops := 1, total_distance_km := 1
  , total_duration_minutes := 10, route_geometry := none
  , start_time := "09:00", end_time := "09:30" }

def c9routeOther : RouteRec :=
  { id := 2, delivery_day_id := 2, driver_id := 2, route_number := 1
  , color := "#EF4444", total_stops := 1, total_distance_km := 1
  , total_duration_minutes := 10, route_geometry := none
  , start_time := "09:00", end_time := "09:30" }

def c9db : Db :=
  { addresses := [c6addr], drivers := [c6driver]
  , delivery_days := [c9day0, c9dayOther]
  , routes := [c9routeOld, c9routeOther], route_stops := [] }

def c9req : OptimizationRequest :=
  { date := 7, address_ids := [1], driver_ids := [2], start_time := 540
  , driver_constraints := none, time_limit_seconds := 30 }

def c9solution : Solution :=
  { routes := [{ vehicle_id := 0, stops := [(0, 0), (1, 5), (0, 10)]
               , distance_km := 2, duration_minutes := 10 }]
  , total_distance_km := 2, total_duration_minutes := 10, num_routes := 1
  , dropped_nodes := [], objective_value := 0 }

def c9locations : List (ℚ × ℚ) := [(44, -93), (10, 10)]

def c9mat : List (List ℚ) := [[0, 1], [1, 0]]

def c9day : DeliveryDayRec := updateDayStats c9day0 1 c9solution

def c9db2 : Db :=
  persistDay c9db c9day
    (buildDayRoutes trivialOracles c9day.id (newRouteIdBase c9db) [c6driver] []
      c9locations (addressMap [c6addr]) c9mat c9mat (earliestStart c9req [c6driver]) c9solution)

theorem claim_C9_replace_all_persistence_witness :
    c9day.id = c9day0.id ∧ c9day.date = c9req.date ∧
    c9db2.routes = c9db.routes.filter (fun r => decide (r.delivery_day_id ≠ c9day0.id))
      ++ (buildDayRoutes trivialOracles c9day.id (newRouteIdBase c9db) [c6driver] []
            c9locations (addressMap [c6addr]) c9mat c9mat
            (earliestStart c9req [c6driver]) c9solution).map Prod.fst ∧
    (∀ r ∈ c9db.routes, r.delivery_day_id = c9day0.id → r ∉ c9db2.routes) ∧
    (∀ d2 ∈ c9db.delivery_days, d2.date ≠ c9req.date → d2 ∈ c9db2.delivery_days) ∧
    (∀ e, optimizeCore stA trivialOracles c9req c9db = .error e →
       optimize_routes stA trivialOracles c9req c9db = (c9db, .error e)) :=
  claim_C9_replace_all_persistence stA trivialOracles c9req c9db [c6addr] [c6driver] []
    c9locations (addressMap [c6addr]) c9mat c9mat c9solution c9db2 c9day c9day0
    (by decide) rfl (by decide) rfl

/-! ### Claim C3: single-driver single-stop round trip -/

/-- The assignment that serves the single delivery node. -/
def serveSol (t1 t2 : ℤ) : RawSolution := ⟨[⟨[(1, t1)], 0, t2⟩]⟩

theorem feasible_two_loc (s : VRPSolver) (sol : RawSolution)
    (hloc : s.num_locations = 2) (hveh : s.num_vehicles = 1) (hf : Feasible s sol) :
    ∃ p, sol.plans = [p] ∧ (p.visits = [] ∨ ∃ t, p.visits = [(1, t)]) := by
  obtain ⟨h1, h2, h3, -, -, -, -, -, -, -, -⟩ := hf
  rw [hveh] at h1
  obtain ⟨p, hp⟩ := List.length_eq_one.mp h1
  refine ⟨p, hp, ?_⟩
  have hbound := h2 p (by rw [hp]; exact List.mem_singleton.mpr rfl)
  have hnodup : (nodesOf p).Nodup := by
    have hv2 : visitedNodes sol = nodesOf p := by
      rw [visitedNodes, hp]; simp
    rwa [hv2] at h3
  rcases hv : p.visits with _ | ⟨⟨u1, t1⟩, rest⟩
  · exact Or.inl rfl
  · rcases rest with _ | ⟨⟨u2, t2⟩, rest2⟩
    · have hb1 := hbound u1 (by simp [nodesOf, hv])
      rw [hloc] at hb1
      have hu1 : u1 = 1 := by omega
      subst hu1
      exact Or.inr ⟨t1, rfl⟩
    · exfalso
      have hb1 := hbound u1 (by simp [nodesOf, hv])
      have hb2 := hbound u2 (by simp [nodesOf, hv])
      rw [hloc] at hb1 hb2
      have hu1 : u1 = 1 := by omega
      have hu2 : u2 = 1 := by omega
      subst hu1
      subst hu2
      simp [nodesOf, hv] at hnodup

theorem objective_two_loc_empty (s : VRPSolver) (sol : RawSolution) (p : VehiclePlan)
    (hloc : s.num_locations = 2) (hd0 : s.depot_index = 0)
    (hp : sol.plans = [p]) (hv : p.visits = []) :
    objective s sol = s.distCost 0 0 + 100000 := by
  have hvis : visitedNodes sol = [] := by
    rw [visitedNodes, hp]; simp [nodesOf, hv]
  rw [objective, hp, droppedNodes, hloc, hvis]
  simp [pathNodes, nodesOf, hv, hd0, zAlong, List.range_succ]

theorem objective_two_loc_single (s : VRPSolver) (sol : RawSolution) (p : VehiclePlan) (t : ℤ)
    (hloc : s.num_locations = 2) (hd0 : s.depot_index = 0)
    (hp : sol.plans = [p]) (hv : p.visits = [(1, t)]) :
    objective s sol = s.distCost 0 1 + s.distCost 1 0 := by
  have hvis : visitedNodes sol = [1] := by
    rw [visitedNodes, hp]; simp [nodesOf, hv]
  rw [objective, hp, droppedNodes, hloc, hvis]
  simp [pathNodes, nodesOf, hv, hd0, zAlong, List.range_succ, add_assoc]

/-- C3: with a single vehicle, a single delivery node, depot return (no
mandatory stop needed), a zero start offset, a feasible way to serve the node
and a service cost below the drop penalty, the optimal assignment yields
exactly one route of one delivery stop, starting and ending at the depot, with
start time offset 0 and an empty dropped list. -/
theorem claim_C3_single_stop_roundtrip (s : VRPSolver) (sol : RawSolution) (t1 t2 : ℤ)
    (hloc : s.num_locations = 2) (hveh : s.num_vehicles = 1)
    (hd0 : s.depot_index = 0) (hoff : s.vehicle_start_offsets = [0])
    (hret : SolverReturns s sol)
    (hserve : Feasible s (serveSol t1 t2))
    (hcheap : s.distCost 0 1 + s.distCost 1 0 < s.distCost 0 0 + 100000) :
    (extract_solution s sol).num_routes = 1 ∧
    (extract_solution s sol).dropped_nodes = [] ∧
    ∃ r, (extract_solution s sol).routes = [r] ∧
      r.vehicle_id = 0 ∧ r.stops.length = 3 ∧ r.stops.length - 2 = 1 ∧
      (r.stops.headD (0, 0)).1 = s.depot_index ∧
      (r.stops.getLastD (0, 0)).1 = s.depot_index ∧
      (r.stops.headD (0, 0)).2 = 0 := by
  obtain ⟨hfeas, hopt⟩ := hret
  obtain ⟨p, hp, hcases⟩ := feasible_two_loc s sol hloc hveh hfeas
  have hobjserve : objective s (serveSol t1 t2) = s.distCost 0 1 + s.distCost 1 0 :=
    objective_two_loc_single s (serveSol t1 t2) ⟨[(1, t1)], 0, t2⟩ t1 hloc hd0 rfl rfl
  rcases hcases with hv | ⟨t, hv⟩
  · exfalso
    have h1 := objective_two_loc_empty s sol p hloc hd0 hp hv
    have h2 := hopt (serveSol t1 t2) hserve
    rw [h1, hobjserve] at h2
    omega
  · have hstart : p.startTime = 0 := by
      obtain ⟨-, -, -, -, h5, -, -, -, -, -, -⟩ := hfeas
      have h5p := h5 (0, p) (by rw [hp]; exact List.mem_singleton.mpr rfl)
      simpa [hoff] using h5p
    have hroutes : (extract_solution s sol).routes = [extractRoute s 0 p] := by
      show ((sol.plans.enum.map (fun ip => extractRoute s ip.1 ip.2)).filter
        (fun r => decide (2 < r.stops.length))) = [extractRoute s 0 p]
      rw [hp]
      simp [extractRoute, hv]
    have hdropped2 : (extract_solution s sol).dropped_nodes = [] := by
      show droppedNodes s sol = []
      have hvis : visitedNodes sol = [1] := by
        rw [visitedNodes, hp]; simp [nodesOf, hv]
      rw [droppedNodes, hloc, hvis]
      simp [List.range_succ]
    refine ⟨?_, hdropped2, extractRoute s 0 p, hroutes, rfl, ?_, ?_, rfl, ?_, ?_⟩
    · have hnr : (extract_solution s sol).num_routes = (extract_solution s sol).routes.length :=
        rfl
      rw [hnr, hroutes]
      rfl
    · simp [extractRoute, hv]
    · simp [extractRoute, hv]
    · show (((s.depot_index, p.startTime) ::
        (p.visits ++ [(s.depot_index, p.endTime)])).getLastD (0, 0)).1 = s.depot_index
      rw [getLastD_cons_append]
    · simpa [extractRoute] using hstart

/-- A concrete 2-location, 1-vehicle solver state for the round-trip
scenario. -/
def s3 : VRPSolver :=
  { distance_matrix := [[0, 1], [1, 0]], duration_matrix := [[0, 5], [5, 0]]
  , num_vehicles := 1, depot_index := 0
  , service_times := [0, 5]
  , time_windows := [(0, 120), (0, 120)]
  , max_route_durations := [120]
  , vehicle_capacities := [15]
  , vehicle_start_offsets := [0]
  , mandatory_final_stops := [], allowed_vehicles := [] }

def sol3 : RawSolution := serveSol 5 15

theorem s3_opt : ∀ sol2, Feasible s3 sol2 → objective s3 sol3 ≤ objective s3 sol2 := by
  intro sol2 hf2
  obtain ⟨p, hp, hcases⟩ := feasible_two_loc s3 sol2 rfl rfl hf2
  have hobj3 : objective s3 sol3 = s3.distCost 0 1 + s3.distCost 1 0 :=
    objective_two_loc_single s3 sol3 ⟨[(1, 5)], 0, 15⟩ 5 rfl rfl rfl rfl
  rcases hcases with hv | ⟨t, hv⟩
  · rw [hobj3, objective_two_loc_empty s3 sol2 p rfl rfl hp hv]
    norm_num [VRPSolver.distCost, pyInt, mget, s3]
  · rw [hobj3, objective_two_loc_single s3 sol2 p t rfl rfl hp hv]

theorem claim_C3_single_stop_roundtrip_witness :
    (extract_solution s3 sol3).num_routes = 1 ∧
    (extract_solution s3 sol3).dropped_nodes = [] ∧
    ∃ r, (extract_solution s3 sol3).routes = [r] ∧
      r.vehicle_id = 0 ∧ r.stops.length = 3 ∧ r.stops.length - 2 = 1 ∧
      (r.stops.headD (0, 0)).1 = s3.depot_index ∧
      (r.stops.getLastD (0, 0)).1 = s3.depot_index ∧
      (r.stops.headD (0, 0)).2 = 0 :=
  claim_C3_single_stop_roundtrip s3 sol3 5 15 rfl rfl rfl rfl
    ⟨by decide, s3_opt⟩ (by decide)
    (by norm_num [VRPSolver.distCost, pyInt, mget, s3])

end GroupDelivery

